import Mathlib

/-!
# RedditClone: the engine actor of `engine.go`

A shallow embedding of the `RedditEngine` actor.  The engine owns four Go maps
and handles one message at a time; every handler is embedded as a function from
the engine state to an `Outcome`: the state afterwards, the value handed to
`context.Respond` (if the handler calls it at all) and what the handler wrote to
the `http.ResponseWriter` (only `getUserFeed` does).

Modelling conventions

* A Go `map[string]V` is a key/value list kept in insertion order (`GoMap`).
  Go leaves the iteration order of a map unspecified; the list order is one
  admissible order, and statements about iteration are made up to order.
* A Go pointer `*User`, `*Subreddit`, `*Post` is the key under which the object
  is stored in the engine's map.  The engine never removes a key from
  `users`, `subreddits` or `posts` and never rebinds a key of `users` or
  `subreddits`, so the key denotes the same object for the life of the store,
  and a mutation made through one alias (`subreddit.Members[...] = ...`) is seen
  through every other (`post.Subreddit.Members`).
* `fmt.Printf` logging is not modelled.  `time.Now()` is an input `now`.
* A Go `int` is an `Int` kept in the range of a 64-bit build: `x++` is `incr x`,
  which wraps around from `maxInt` to `minInt` (two's complement).
-/

namespace RedditClone

/-! ## Go maps -/

/-- Go `map[string]V` as a key/value list in insertion order. -/
abbrev GoMap (V : Type) := List (String × V)

namespace GoMap

variable {V : Type}

/-- Go `v, ok := m[k]`: the value bound to `k`, if any. -/
def index : GoMap V → String → Option V
  | [], _ => none
  | (k', v) :: rest, k => if k' = k then some v else index rest k

/-- Go `m[k] = v`: rebinds `k` when it is a key of `m`, adds the binding otherwise. -/
def assign : GoMap V → String → V → GoMap V
  | [], k, v => [(k, v)]
  | (k', v') :: rest, k, v =>
    if k' = k then (k', v) :: rest else (k', v') :: assign rest k v

/-- Go `delete(m, k)`. -/
def delete (m : GoMap V) (k : String) : GoMap V :=
  m.filter (fun kv => decide (kv.1 ≠ k))

/-- Go `len(m)`. -/
def len (m : GoMap V) : Nat := m.length

end GoMap

/-! ## Go `int` -/

/-- The largest Go `int` on a 64-bit build, `2^63 - 1`. -/
def maxInt : Int := 9223372036854775807

/-- The smallest Go `int` on a 64-bit build, `-2^63`. -/
def minInt : Int := -9223372036854775808

/-- Go `int` arithmetic on a 64-bit build: a result is reduced modulo `2^64` into the
range from `minInt` to `maxInt` (two's complement wrap-around). -/
def wrapInt (x : Int) : Int :=
  (x + 9223372036854775808) % 18446744073709551616 - 9223372036854775808

/-- Go `x++` on an `int`. -/
def incr (x : Int) : Int := wrapInt (x + 1)

/-! ## Data model (`engine.go`, lines 68-122) -/

/-- Go `User`. -/
structure User where
  ID : String
  Username : String
  Karma : Int
  Inbox : List String
  deriving DecidableEq, Repr

/-- Go `Subreddit`; `Members` maps a username to a `*User`, here the user's key. -/
structure Subreddit where
  ID : String
  Name : String
  Description : String
  Members : GoMap String
  deriving DecidableEq, Repr

/-- Go `Post`; `Author` and `Subreddit` are pointers, here keys of `users` and `subreddits`.
`Upvotes` and `Downvotes` are Go `int`s: they start at 0 and change only by `incr`, which
keeps them between `minInt` and `maxInt`. -/
structure Post where
  ID : String
  Title : String
  Content : String
  Author : String
  Subreddit : String
  Upvotes : Int
  Downvotes : Int
  CreatedAt : Nat
  deriving DecidableEq, Repr

/-- Go `Comment`; `Author` and `Post` are pointers, here keys of `users` and `posts`;
`ParentID` is a `*string`, `none` for `nil`.  `Upvotes` and `Downvotes` are Go `int`s: they
start at 0 and change only by `incr`, which keeps them between `minInt` and `maxInt`. -/
structure Comment where
  ID : String
  Content : String
  Author : String
  Post : String
  ParentID : Option String
  Upvotes : Int
  Downvotes : Int
  CreatedAt : Nat
  deriving DecidableEq, Repr

/-- Go `RedditEngine`: the four maps of the actor. -/
structure RedditEngine where
  users : GoMap User
  subreddits : GoMap Subreddit
  posts : GoMap Post
  comments : GoMap Comment
  deriving DecidableEq, Repr

/-- The engine built in `main`: four empty maps. -/
def RedditEngine.empty : RedditEngine :=
  { users := [], subreddits := [], posts := [], comments := [] }

/-- One entry of the feed: the map literal with keys `subreddit`, `title`, `author`
built in `getUserFeed`.  (The Go struct `PostInfo`, with JSON keys `subreddit_name`,
`title`, `author_name`, is used only in the commented-out loop.) -/
structure PostInfo where
  subreddit : String
  title : String
  author : String
  deriving DecidableEq, Repr

/-! ## Responses (`responses.go`) -/

/-- The value passed to `context.Respond`: a Go `bool` or an `int` code. -/
inductive Reply where
  | bool (b : Bool)
  | code (n : Nat)
  deriving DecidableEq, Repr

/-- The `data interface{}` values the program puts in an envelope. -/
inductive Data where
  | text (s : String)
  | errorMap (msg : String)
  | postsMap (posts : List PostInfo)
  deriving DecidableEq, Repr

/-- Go `APIResponse`; `Message` and `Data` are `omitempty`. -/
structure APIResponse where
  Status : String
  Message : Option String
  Data : Option Data
  deriving DecidableEq, Repr

/-- What a helper of `responses.go` does to the `http.ResponseWriter`. -/
structure HTTPWrite where
  jsonContentType : Bool
  statusCode : Nat
  body : APIResponse
  deriving DecidableEq, Repr

/-- Go `JSONError`. -/
def JSONError (code : Nat) (message : String) : HTTPWrite :=
  { jsonContentType := false, statusCode := code,
    body := { Status := "error", Message := some message, Data := none } }

/-- Go `JSONSuccess`. -/
def JSONSuccess (data : Data) : HTTPWrite :=
  { jsonContentType := false, statusCode := 200,
    body := { Status := "success", Message := none, Data := some data } }

/-- Go `JSONFeed`. -/
def JSONFeed (data : Data) : HTTPWrite :=
  { jsonContentType := true, statusCode := 200,
    body := { Status := "success", Message := none, Data := some data } }

/-- The result of handling one message. -/
structure Outcome where
  engine : RedditEngine
  respond : Option Reply
  written : Option HTTPWrite
  deriving DecidableEq, Repr

/-- A handler that returns after `context.Respond(r)` with the engine `re`. -/
def Outcome.reply (re : RedditEngine) (r : Reply) : Outcome :=
  { engine := re, respond := some r, written := none }

/-- A handler that returns without calling `context.Respond`. -/
def Outcome.silent (re : RedditEngine) : Outcome :=
  { engine := re, respond := none, written := none }

/-! ## Handlers (`engine.go`, lines 152-396) -/

/-- Go `fmt.Sprintf("%s_post_%d", authorName, n)`. -/
def postIdOf (authorName : String) (n : Nat) : String :=
  authorName ++ "_post_" ++ Nat.repr n

/-- Go `fmt.Sprintf("%s_comment_%d", authorName, n)`. -/
def commentIdOf (authorName : String) (n : Nat) : String :=
  authorName ++ "_comment_" ++ Nat.repr n

/-- Go `fmt.Sprintf("From:% s -% s", fromUsername, content)`; the space flag has no
effect on the verb `%s`. -/
def directMessageOf (fromUsername content : String) : String :=
  "From:" ++ fromUsername ++ " -" ++ content

namespace RedditEngine

/-- Go `registerUser`. -/
def registerUser (re : RedditEngine) (username : String) : Outcome :=
  match re.users.index username with
  | some _ => Outcome.reply re (Reply.bool false)
  | none =>
    let user : User := { ID := username, Username := username, Karma := 0, Inbox := [] }
    Outcome.reply { re with users := re.users.assign username user } (Reply.bool true)

/-- Go `createSubreddit`. -/
def createSubreddit (re : RedditEngine) (name description : String) : Outcome :=
  match re.subreddits.index name with
  | some _ => Outcome.reply re (Reply.bool false)
  | none =>
    let subreddit : Subreddit :=
      { ID := name, Name := name, Description := description, Members := [] }
    Outcome.reply { re with subreddits := re.subreddits.assign name subreddit } (Reply.bool true)

/-- Go `joinSubreddit`; `subreddit.Members[username] = user` writes through the pointer
held in `re.subreddits`. -/
def joinSubreddit (re : RedditEngine) (username subredditName : String) : Outcome :=
  match re.users.index username with
  | none => Outcome.reply re (Reply.code 301)
  | some _ =>
    match re.subreddits.index subredditName with
    | none => Outcome.reply re (Reply.code 302)
    | some subreddit =>
      let subreddit' : Subreddit :=
        { subreddit with Members := subreddit.Members.assign username username }
      Outcome.reply { re with subreddits := re.subreddits.assign subredditName subreddit' }
        (Reply.code 200)

/-- Go `leaveSubreddit`. -/
def leaveSubreddit (re : RedditEngine) (username subredditName : String) : Outcome :=
  match re.subreddits.index subredditName with
  | none => Outcome.reply re (Reply.code 301)
  | some subreddit =>
    let subreddit' : Subreddit := { subreddit with Members := subreddit.Members.delete username }
    Outcome.reply { re with subreddits := re.subreddits.assign subredditName subreddit' }
      (Reply.code 200)

/-- Go `createPost`; `now` is the value of `time.Now()`. -/
def createPost (re : RedditEngine) (now : Nat) (title content authorName subredditName : String) :
    Outcome :=
  match re.users.index authorName with
  | none => Outcome.reply re (Reply.code 301)
  | some _ =>
    match re.subreddits.index subredditName with
    | none => Outcome.reply re (Reply.code 302)
    | some _ =>
      let postId := postIdOf authorName (re.posts.len + 1)
      let post : Post :=
        { ID := postId, Title := title, Content := content, Author := authorName,
          Subreddit := subredditName, Upvotes := 0, Downvotes := 0, CreatedAt := now }
      Outcome.reply { re with posts := re.posts.assign postId post } (Reply.code 200)

/-- Go `createComment`; `now` is the value of `time.Now()`. -/
def createComment (re : RedditEngine) (now : Nat) (content authorName postId parentId : String) :
    Outcome :=
  match re.users.index authorName with
  | none => Outcome.reply re (Reply.code 301)
  | some _ =>
    match re.posts.index postId with
    | none => Outcome.reply re (Reply.code 302)
    | some _ =>
      let commentId := commentIdOf authorName (re.comments.len + 1)
      let comment : Comment :=
        { ID := commentId, Content := content, Author := authorName, Post := postId,
          ParentID := if parentId ≠ "" then some parentId else none,
          Upvotes := 0, Downvotes := 0, CreatedAt := now }
      Outcome.reply { re with comments := re.comments.assign commentId comment } (Reply.code 200)

/-- Go `upvote`.  The `else` that responds 302 belongs to the test
`mediaType == "Comment"`, not to the lookup of the comment. -/
def upvote (re : RedditEngine) (_userId mediaType targetId : String) : Outcome :=
  if mediaType = "Post" then
    match re.posts.index targetId with
    | some post =>
      Outcome.reply
        { re with posts := re.posts.assign targetId { post with Upvotes := incr post.Upvotes } }
        (Reply.code 201)
    | none => Outcome.reply re (Reply.code 301)
  else
    if mediaType = "Comment" then
      match re.comments.index targetId with
      | some comment =>
        Outcome.reply
          { re with
            comments :=
              re.comments.assign targetId { comment with Upvotes := incr comment.Upvotes } }
          (Reply.code 202)
      | none => Outcome.silent re
    else
      Outcome.reply re (Reply.code 302)

/-- Go `downvote`, with the same branch structure as `upvote`. -/
def downvote (re : RedditEngine) (_userId mediaType targetId : String) : Outcome :=
  if mediaType = "Post" then
    match re.posts.index targetId with
    | some post =>
      Outcome.reply
        { re with
          posts := re.posts.assign targetId { post with Downvotes := incr post.Downvotes } }
        (Reply.code 201)
    | none => Outcome.reply re (Reply.code 301)
  else
    if mediaType = "Comment" then
      match re.comments.index targetId with
      | some comment =>
        Outcome.reply
          { re with
            comments :=
              re.comments.assign targetId { comment with Downvotes := incr comment.Downvotes } }
          (Reply.code 202)
      | none => Outcome.silent re
    else
      Outcome.reply re (Reply.code 302)

/-- Go `sendDirectMessage`; `toUser.Inbox = append(toUser.Inbox, message)` writes through
the pointer held in `re.users`. -/
def sendDirectMessage (re : RedditEngine) (fromUsername toUsername content : String) : Outcome :=
  match re.users.index toUsername with
  | none => Outcome.reply re (Reply.code 301)
  | some toUser =>
    match re.users.index fromUsername with
    | none => Outcome.reply re (Reply.code 302)
    | some _ =>
      let message := directMessageOf fromUsername content
      let toUser' : User := { toUser with Inbox := toUser.Inbox ++ [message] }
      Outcome.reply { re with users := re.users.assign toUsername toUser' } (Reply.code 200)

/-- The body of the loop `for _, post := range re.posts` of `getUserFeed`: `posts` is the
slice built so far.  `post.Subreddit` and `post.Author` are dereferenced by looking the
keys up; a Go pointer always has a target, and a post whose key has none adds nothing. -/
def feedStep (re : RedditEngine) (user : User) (posts : List PostInfo) (post : Post) :
    List PostInfo :=
  match re.subreddits.index post.Subreddit with
  | none => posts
  | some subreddit =>
    match subreddit.Members.index user.ID with
    | none => posts
    | some _ =>
      match re.users.index post.Author with
      | none => posts
      | some author =>
        posts ++ [{ subreddit := subreddit.Name, title := post.Title,
                    author := author.Username }]

/-- Go `getUserFeed`. -/
def getUserFeed (re : RedditEngine) (username : String) : Outcome :=
  match re.users.index username with
  | none =>
    { engine := re, respond := some (Reply.code 200),
      written := some (JSONSuccess (Data.errorMap "User doesn't exist")) }
  | some user =>
    let posts := re.posts.foldl (fun acc kv => feedStep re user acc kv.2) []
    { engine := re, respond := some (Reply.code 200),
      written := some (JSONFeed (Data.postsMap posts)) }

end RedditEngine

/-- The messages the actor understands; `other` is any message of another type
(the `default` branch of `Receive`). -/
inductive Message where
  | RegisterUser (Username : String)
  | CreateSubreddit (Name Description : String)
  | JoinSubreddit (Username Subreddit : String)
  | LeaveSubreddit (Username Subreddit : String)
  | CreatePost (Title Content Author Subreddit : String)
  | CreateComment (Content Author PostID ParentID : String)
  | Upvote (UserID MediaType TargetID : String)
  | Downvote (UserID MediaType TargetID : String)
  | SendDirectMessage (From To Content : String)
  | GetUserFeed (Username : String)
  | other
  deriving DecidableEq, Repr

/-- Go `Receive`: dispatch on the type of the message; `now` is the clock reading
available to the handler. -/
def RedditEngine.Receive (re : RedditEngine) (now : Nat) : Message → Outcome
  | Message.RegisterUser u => re.registerUser u
  | Message.CreateSubreddit n d => re.createSubreddit n d
  | Message.JoinSubreddit u s => re.joinSubreddit u s
  | Message.LeaveSubreddit u s => re.leaveSubreddit u s
  | Message.CreatePost t c a s => re.createPost now t c a s
  | Message.CreateComment c a p q => re.createComment now c a p q
  | Message.Upvote u m t => re.upvote u m t
  | Message.Downvote u m t => re.downvote u m t
  | Message.SendDirectMessage f t c => re.sendDirectMessage f t c
  | Message.GetUserFeed u => re.getUserFeed u
  | Message.other => Outcome.silent re

/-- The engine after a sequence of messages, each handled with its own clock reading. -/
def RedditEngine.run (re : RedditEngine) : List (Nat × Message) → RedditEngine
  | [] => re
  | (now, msg) :: rest => RedditEngine.run (re.Receive now msg).engine rest

/-- The messages `Upvote(u, mediaType, targetId)`, one for each caller in `callers`,
each with its clock reading. -/
def upvotesBy (mediaType targetId : String) (callers : List (Nat × String)) :
    List (Nat × Message) :=
  callers.map (fun c => (c.1, Message.Upvote c.2 mediaType targetId))

/-! ## Exchanging the two vote counters -/

/-- Applies `f` to every value of a Go map, keys and order kept. -/
def GoMap.mapValues {V W : Type} (f : V → W) (m : GoMap V) : GoMap W :=
  m.map (fun kv => (kv.1, f kv.2))

/-- The post with `Upvotes` and `Downvotes` exchanged. -/
def Post.swapVotes (p : Post) : Post :=
  { p with Upvotes := p.Downvotes, Downvotes := p.Upvotes }

/-- The comment with `Upvotes` and `Downvotes` exchanged. -/
def Comment.swapVotes (c : Comment) : Comment :=
  { c with Upvotes := c.Downvotes, Downvotes := c.Upvotes }

/-- The engine in which every post and every comment has its two counters exchanged. -/
def RedditEngine.swapVotes (re : RedditEngine) : RedditEngine :=
  { re with
    posts := re.posts.mapValues Post.swapVotes,
    comments := re.comments.mapValues Comment.swapVotes }

/-! ## The feed, stated from the specification -/

/-- The responses to a sequence of messages, in order; `none` where the handler made no
call to `context.Respond`. -/
def RedditEngine.trace (re : RedditEngine) : List (Nat × Message) → List (Option Reply)
  | [] => []
  | (now, msg) :: rest =>
    (re.Receive now msg).respond :: RedditEngine.trace (re.Receive now msg).engine rest

/-- The membership set of the subreddit of `post` contains the user id `uid`. -/
def RedditEngine.inFeedOf (re : RedditEngine) (uid : String) (post : Post) : Bool :=
  match re.subreddits.index post.Subreddit with
  | none => false
  | some subreddit => (subreddit.Members.index uid).isSome

/-- The entry `e` carries the name of the subreddit of `post`, the title of `post` and the
username of the author of `post`. -/
def RedditEngine.Summarises (re : RedditEngine) (post : Post) (e : PostInfo) : Prop :=
  ∃ (subreddit : Subreddit) (author : User),
    re.subreddits.index post.Subreddit = some subreddit ∧
    re.users.index post.Author = some author ∧
    e = { subreddit := subreddit.Name, title := post.Title, author := author.Username }

/-- Every post of the engine has an author that is a key of `users`: the `*User` of each
post has a target. -/
def RedditEngine.AuthorsResolve (re : RedditEngine) : Prop :=
  ∀ kv ∈ re.posts, (re.users.index kv.2.Author).isSome = true

/-- A store with users `u` and `v`, subreddits `A`, `B`, `C`, where `u` has joined `A`
and `B`, `v` has joined `C`, and `v` has posted once in each of the three. -/
def feedExample : RedditEngine :=
  RedditEngine.empty.run
    [(0, Message.RegisterUser "u"), (1, Message.RegisterUser "v"),
     (2, Message.CreateSubreddit "A" "a"), (3, Message.CreateSubreddit "B" "b"),
     (4, Message.CreateSubreddit "C" "c"),
     (5, Message.JoinSubreddit "u" "A"), (6, Message.JoinSubreddit "u" "B"),
     (7, Message.JoinSubreddit "v" "C"),
     (8, Message.CreatePost "in A" "x" "v" "A"), (9, Message.CreatePost "in B" "y" "v" "B"),
     (10, Message.CreatePost "in C" "z" "v" "C")]

/-- The scenario of the specification: register alice and bob, create golang, alice joins,
alice posts "Hello", bob upvotes the post. -/
def scenario (d c : String) : List (Nat × Message) :=
  [(0, Message.RegisterUser "alice"), (1, Message.RegisterUser "bob"),
   (2, Message.CreateSubreddit "golang" d), (3, Message.JoinSubreddit "alice" "golang"),
   (4, Message.CreatePost "Hello" c "alice" "golang"),
   (5, Message.Upvote "bob" "Post" "alice_post_1")]

/-! ## The HTTP handler of `/post/create` (`routers.go`) -/

/-- The request body of `/post/create` after JSON decoding. -/
structure CreatePostRequest where
  Title : String
  Content : String
  Author : String
  Subreddit : String
  deriving DecidableEq, Repr

/-- Go `CreatePostHandler`: `request` is `none` when the body does not decode; otherwise
the handler sends a `CreatePost` to the engine and turns the future's result into what it
writes (`out.respond = none` is the future timing out).  Returns the engine afterwards and
what was written to the client, if anything. -/
def CreatePostHandler (re : RedditEngine) (now : Nat) (request : Option CreatePostRequest) :
    RedditEngine × Option HTTPWrite :=
  match request with
  | none => (re, some (JSONError 400 "Invalid request body"))
  | some request =>
    let out := re.Receive now
      (Message.CreatePost request.Title request.Content request.Author request.Subreddit)
    if out.respond = some (Reply.code 200) then
      (out.engine, some (JSONSuccess (Data.text "Post created successfully")))
    else if out.respond = some (Reply.code 301) then
      (out.engine, some (JSONError 403 "No such username"))
    else if out.respond = some (Reply.code 302) then
      (out.engine, some (JSONError 403 "No such subreddit"))
    else (out.engine, none)

/-! ## Runs from the empty store -/

/-- The number a list of decimal digit characters denotes. -/
def decimalValue (l : List Char) : Nat :=
  l.foldl (fun acc c => acc * 10 + (c.toNat - 48)) 0

/-- The digits at the end of a list of characters. -/
def trailingDigits (l : List Char) : List Char :=
  (l.reverse.takeWhile Char.isDigit).reverse

/-- Every post id is `<a>_post_<n>` with `n` at most the number of posts, and every
comment id is `<a>_comment_<n>` with `n` at most the number of comments. -/
def RedditEngine.IdsNumbered (re : RedditEngine) : Prop :=
  (∀ k, (re.posts.index k).isSome = true →
    ∃ (a : String) (n : Nat), k = postIdOf a n ∧ n ≤ re.posts.len) ∧
  (∀ k, (re.comments.index k).isSome = true →
    ∃ (a : String) (n : Nat), k = commentIdOf a n ∧ n ≤ re.comments.len)

/-- The post `p'` is `p` up to its counters, neither of which is lower unless it stood at
the largest `int`. -/
def Post.KeptBy (p p' : Post) : Prop :=
  p'.ID = p.ID ∧ p'.Title = p.Title ∧ p'.Content = p.Content ∧ p'.Author = p.Author ∧
  p'.Subreddit = p.Subreddit ∧ p'.CreatedAt = p.CreatedAt ∧
  (p.Upvotes < maxInt → p.Upvotes ≤ p'.Upvotes) ∧
  (p.Downvotes < maxInt → p.Downvotes ≤ p'.Downvotes)

/-- The comment `c'` is `c` up to its counters, neither of which is lower unless it stood
at the largest `int`. -/
def Comment.KeptBy (c c' : Comment) : Prop :=
  c'.ID = c.ID ∧ c'.Content = c.Content ∧ c'.Author = c.Author ∧ c'.Post = c.Post ∧
  c'.ParentID = c.ParentID ∧ c'.CreatedAt = c.CreatedAt ∧
  (c.Upvotes < maxInt → c.Upvotes ≤ c'.Upvotes) ∧
  (c.Downvotes < maxInt → c.Downvotes ≤ c'.Downvotes)

/-- The message is a `CreatePost` that the engine answers with 200. -/
def RedditEngine.postCreated (re : RedditEngine) (now : Nat) (msg : Message) : Bool :=
  match msg with
  | Message.CreatePost _ _ _ _ => decide ((re.Receive now msg).respond = some (Reply.code 200))
  | _ => false

/-- The message is a `CreateComment` that the engine answers with 200. -/
def RedditEngine.commentCreated (re : RedditEngine) (now : Nat) (msg : Message) : Bool :=
  match msg with
  | Message.CreateComment _ _ _ _ =>
    decide ((re.Receive now msg).respond = some (Reply.code 200))
  | _ => false

/-- The number of posts successfully created along a run. -/
def RedditEngine.createdPosts (re : RedditEngine) : List (Nat × Message) → Nat
  | [] => 0
  | (now, msg) :: rest =>
    (if re.postCreated now msg then 1 else 0) +
      RedditEngine.createdPosts (re.Receive now msg).engine rest

/-- The number of comments successfully created along a run. -/
def RedditEngine.createdComments (re : RedditEngine) : List (Nat × Message) → Nat
  | [] => 0
  | (now, msg) :: rest =>
    (if re.commentCreated now msg then 1 else 0) +
      RedditEngine.createdComments (re.Receive now msg).engine rest

/-- Referential integrity: the author of every post is a user and its subreddit exists;
the author of every comment is a user and its post exists; every member of every
subreddit, as a key and as the user it points to, is a user. -/
def RedditEngine.RefIntegrity (re : RedditEngine) : Prop :=
  (∀ kv ∈ re.posts, (re.users.index kv.2.Author).isSome = true ∧
    (re.subreddits.index kv.2.Subreddit).isSome = true) ∧
  (∀ kv ∈ re.comments, (re.users.index kv.2.Author).isSome = true ∧
    (re.posts.index kv.2.Post).isSome = true) ∧
  (∀ kv ∈ re.subreddits, ∀ m ∈ kv.2.Members,
    (re.users.index m.1).isSome = true ∧ (re.users.index m.2).isSome = true)

/-- Two authors post one after the other: alice first, then bob. -/
def twoAuthors : List (Nat × Message) :=
  [(0, Message.RegisterUser "alice"), (1, Message.RegisterUser "bob"),
   (2, Message.CreateSubreddit "golang" "d"),
   (3, Message.CreatePost "first" "x" "alice" "golang"),
   (4, Message.CreatePost "second" "y" "bob" "golang"),
   (5, Message.CreateComment "hi" "alice" "alice_post_1" ""),
   (6, Message.CreateComment "ho" "bob" "alice_post_1" "alice_comment_1")]

/-! ## The HTTP handler of `/message/send` (`routers.go`) -/

/-- The request body of `/message/send` after JSON decoding. -/
structure SendDirectMessageRequest where
  From : String
  To : String
  Content : String
  deriving DecidableEq, Repr

/-- Go `SendDirectMessageHandler`: `request` is `none` when the body does not decode;
otherwise the handler sends a `SendDirectMessage` to the engine and turns the future's
result into what it writes (`out.respond = none` is the future timing out).  Returns the
engine afterwards and what was written to the client, if anything. -/
def SendDirectMessageHandler (re : RedditEngine) (now : Nat)
    (request : Option SendDirectMessageRequest) : RedditEngine × Option HTTPWrite :=
  match request with
  | none => (re, some (JSONError 400 "Invalid request body"))
  | some request =>
    let out := re.Receive now
      (Message.SendDirectMessage request.From request.To request.Content)
    if out.respond = some (Reply.code 200) then
      (out.engine, some (JSONSuccess (Data.text "DM sent successfully")))
    else if out.respond = some (Reply.code 301) then
      (out.engine, some (JSONError 403 "Sender doesn't exist"))
    else if out.respond = some (Reply.code 302) then
      (out.engine, some (JSONError 403 "Receiver doesn't exist"))
    else (out.engine, none)

/-- The feed entries carried by the `data` of an envelope: the list under the key `posts`,
none for any other payload. -/
def Data.postEntries : Data → List PostInfo
  | Data.postsMap posts => posts
  | Data.errorMap _ => []
  | Data.text _ => []

/-- A store whose only user is bob. -/
def onlyBob : RedditEngine :=
  RedditEngine.empty.run [(0, Message.RegisterUser "bob")]

/-! ## Stores at the largest `int` -/

/-- A store in which the two counters of the post `alice_post_1` and of the comment
`bob_comment_1` stand at the largest `int`. -/
def saturated : RedditEngine :=
  { users := [("alice", { ID := "alice", Username := "alice", Karma := 0, Inbox := [] }),
              ("bob", { ID := "bob", Username := "bob", Karma := 0, Inbox := [] })],
    subreddits :=
      [("golang", { ID := "golang", Name := "golang", Description := "d", Members := [] })],
    posts :=
      [("alice_post_1",
        { ID := "alice_post_1", Title := "Hello", Content := "c", Author := "alice",
          Subreddit := "golang", Upvotes := 9223372036854775807,
          Downvotes := 9223372036854775807, CreatedAt := 2 })],
    comments :=
      [("bob_comment_1",
        { ID := "bob_comment_1", Content := "hi", Author := "bob", Post := "alice_post_1",
          ParentID := none, Upvotes := 9223372036854775807,
          Downvotes := 9223372036854775807, CreatedAt := 3 })] }

/-- The run in which alice registers, creates golang and posts, and bob then upvotes the
post `n` times. -/
def overflowRun (n : Nat) : List (Nat × Message) :=
  [(0, Message.RegisterUser "alice"), (1, Message.CreateSubreddit "golang" "d"),
   (2, Message.CreatePost "Hello" "c" "alice" "golang")] ++
    upvotesBy "Post" "alice_post_1" (List.replicate n (3, "bob"))

/-! ## Facts about Go maps -/

namespace GoMap

variable {V : Type}

theorem index_assign_self (m : GoMap V) (k : String) (v : V) :
    (m.assign k v).index k = some v := by
  induction m with
  | nil => simp [assign, index]
  | cons kv rest ih =>
    obtain ⟨k', v'⟩ := kv
    by_cases h : k' = k
    · simp [assign, index, h]
    · simp [assign, index, h, ih]

theorem index_assign_of_ne (m : GoMap V) {k k' : String} (v : V) (h : k' ≠ k) :
    (m.assign k v).index k' = m.index k' := by
  induction m with
  | nil => simp [assign, index, Ne.symm h]
  | cons kv rest ih =>
    obtain ⟨k₀, v₀⟩ := kv
    by_cases h₀ : k₀ = k
    · subst h₀
      simp [assign, index, Ne.symm h]
    · by_cases h₁ : k₀ = k'
      · subst h₁
        simp [assign, index, h₀]
      · simp [assign, index, h₀, h₁, ih]

theorem assign_of_index_none (m : GoMap V) {k : String} (v : V) (h : m.index k = none) :
    m.assign k v = m ++ [(k, v)] := by
  induction m with
  | nil => simp [assign]
  | cons kv rest ih =>
    obtain ⟨k₀, v₀⟩ := kv
    by_cases h₀ : k₀ = k
    · simp [index, h₀] at h
    · simp only [index, h₀, if_false] at h
      simp [assign, h₀, ih h]

theorem len_assign_of_index_none (m : GoMap V) {k : String} (v : V) (h : m.index k = none) :
    (m.assign k v).len = m.len + 1 := by
  simp [assign_of_index_none m v h, len]

theorem len_assign_of_index_some (m : GoMap V) {k : String} (v : V) {v₀ : V}
    (h : m.index k = some v₀) : (m.assign k v).len = m.len := by
  induction m with
  | nil => simp [index] at h
  | cons kv rest ih =>
    obtain ⟨k₁, v₁⟩ := kv
    by_cases h₁ : k₁ = k
    · simp [assign, h₁, len]
    · simp only [index, h₁, if_false] at h
      have := ih h
      simp [assign, h₁, len] at this ⊢
      exact this

theorem assign_of_index_some_self (m : GoMap V) {k : String} {v : V} (h : m.index k = some v) :
    m.assign k v = m := by
  induction m with
  | nil => simp [index] at h
  | cons kv rest ih =>
    obtain ⟨k₁, v₁⟩ := kv
    by_cases h₁ : k₁ = k
    · simp only [index, h₁, if_true, Option.some.injEq] at h
      simp [assign, h₁, h]
    · simp only [index, h₁, if_false] at h
      simp [assign, h₁, ih h]

end GoMap

/-! ## Facts about Go `int` -/

theorem wrapInt_of_range (x : Int) (h₁ : minInt ≤ x) (h₂ : x ≤ maxInt) : wrapInt x = x := by
  unfold wrapInt
  unfold minInt at h₁
  unfold maxInt at h₂
  omega

theorem wrapInt_range (x : Int) : minInt ≤ wrapInt x ∧ wrapInt x ≤ maxInt := by
  unfold wrapInt minInt maxInt
  omega

theorem wrapInt_wrapInt_add (a b : Int) : wrapInt (wrapInt a + b) = wrapInt (a + b) := by
  unfold wrapInt
  omega

theorem incr_of_lt_max (x : Int) (h₁ : minInt ≤ x) (h₂ : x < maxInt) : incr x = x + 1 := by
  unfold incr wrapInt
  unfold minInt at h₁
  unfold maxInt at h₂
  omega

theorem le_incr (x : Int) (h : x < maxInt) : x ≤ incr x := by
  unfold incr wrapInt
  unfold maxInt at h
  omega

theorem incr_zero : incr 0 = 1 := by decide

theorem iterate_incr (n : Nat) : ∀ x : Int, minInt ≤ x → x ≤ maxInt →
    incr^[n] x = wrapInt (x + n) := by
  induction n with
  | zero => intro x h₁ h₂; simp [wrapInt_of_range x h₁ h₂]
  | succ n ih =>
    intro x h₁ h₂
    rw [Function.iterate_succ_apply, ih (incr x) (wrapInt_range _).1 (wrapInt_range _).2]
    unfold incr
    rw [wrapInt_wrapInt_add]
    congr 1
    push_cast
    ring

/-! ## Creation handlers: responses and effect on the store -/

open RedditEngine

/-- C1: `createPost` responds 200 exactly when the author is a user and the subreddit
exists; it responds 301 when the author is missing (whatever the subreddit), 302 when
only the subreddit is missing, and in both failure cases the engine is unchanged, so the
number of posts is the same. -/
theorem createPost_contract (re : RedditEngine) (now : Nat)
    (title content author subreddit : String) :
    ((re.createPost now title content author subreddit).respond = some (Reply.code 200) ↔
      (re.users.index author).isSome ∧ (re.subreddits.index subreddit).isSome) ∧
    (re.users.index author = none →
      (re.createPost now title content author subreddit).respond = some (Reply.code 301) ∧
      (re.createPost now title content author subreddit).engine = re) ∧
    ((re.users.index author).isSome → re.subreddits.index subreddit = none →
      (re.createPost now title content author subreddit).respond = some (Reply.code 302) ∧
      (re.createPost now title content author subreddit).engine = re) ∧
    ((re.createPost now title content author subreddit).respond ≠ some (Reply.code 200) →
      (re.createPost now title content author subreddit).engine.posts = re.posts ∧
      (re.createPost now title content author subreddit).engine.posts.len = re.posts.len) := by
  unfold createPost
  cases hu : re.users.index author <;> cases hs : re.subreddits.index subreddit <;>
    simp [Outcome.reply]

/-- C2: `createComment` responds 200 exactly when the author is a user and the post
exists, independently of `parentId`; it responds 301 when the author is missing, 302 when
only the post is missing, leaving the engine unchanged in both cases; on success the
comment map binds `<author>_comment_<count+1>` to a comment with the given content, author
and post, zero votes, and parent `parentId` (no parent when `parentId` is empty). -/
theorem createComment_contract (re : RedditEngine) (now : Nat)
    (content author postId parentId : String) :
    ((re.createComment now content author postId parentId).respond = some (Reply.code 200) ↔
      (re.users.index author).isSome ∧ (re.posts.index postId).isSome) ∧
    (re.users.index author = none →
      (re.createComment now content author postId parentId).respond = some (Reply.code 301) ∧
      (re.createComment now content author postId parentId).engine = re) ∧
    ((re.users.index author).isSome → re.posts.index postId = none →
      (re.createComment now content author postId parentId).respond = some (Reply.code 302) ∧
      (re.createComment now content author postId parentId).engine = re) ∧
    ((re.users.index author).isSome → (re.posts.index postId).isSome →
      (re.createComment now content author postId parentId).engine.comments.index
          (author ++ "_comment_" ++ Nat.repr (re.comments.len + 1)) =
        some { ID := author ++ "_comment_" ++ Nat.repr (re.comments.len + 1),
               Content := content, Author := author, Post := postId,
               ParentID := if parentId = "" then none else some parentId,
               Upvotes := 0, Downvotes := 0, CreatedAt := now }) := by
  unfold createComment
  cases hu : re.users.index author <;> cases hp : re.posts.index postId <;>
    simp [Outcome.reply, commentIdOf, GoMap.index_assign_self]

/-- C3: `registerUser` on a taken username responds `false` and leaves the engine
unchanged; on a free username it responds `true`, binds the username to a user with that
id, karma 0 and an empty inbox, and changes nothing else: every other key of `users` keeps
its binding, the map has one key more, and the other three maps are the same. -/
theorem registerUser_contract (re : RedditEngine) (username : String) :
    ((re.users.index username).isSome →
      (re.registerUser username).respond = some (Reply.bool false) ∧
      (re.registerUser username).engine = re) ∧
    (re.users.index username = none →
      (re.registerUser username).respond = some (Reply.bool true) ∧
      (re.registerUser username).engine.users.index username =
        some { ID := username, Username := username, Karma := 0, Inbox := [] } ∧
      (∀ k, k ≠ username → (re.registerUser username).engine.users.index k = re.users.index k) ∧
      (re.registerUser username).engine.users.len = re.users.len + 1 ∧
      (re.registerUser username).engine.subreddits = re.subreddits ∧
      (re.registerUser username).engine.posts = re.posts ∧
      (re.registerUser username).engine.comments = re.comments) := by
  unfold registerUser
  cases hu : re.users.index username with
  | some u => simp [Outcome.reply]
  | none =>
    simp only [Outcome.reply, Option.isSome_none, Bool.false_eq_true, false_implies, true_and,
      forall_true_left, and_true]
    refine ⟨GoMap.index_assign_self _ _ _, ?_, GoMap.len_assign_of_index_none _ _ hu⟩
    intro k hk
    exact GoMap.index_assign_of_ne _ _ hk

/-- C4: `createSubreddit` on a taken name responds `false` and leaves the engine
unchanged; on a free name it responds `true`, binds the name to a subreddit with that
name, the given description and no members, and changes nothing else: every other key of
`subreddits` keeps its binding, the map has one key more, and the other three maps are the
same. -/
theorem createSubreddit_contract (re : RedditEngine) (name description : String) :
    ((re.subreddits.index name).isSome →
      (re.createSubreddit name description).respond = some (Reply.bool false) ∧
      (re.createSubreddit name description).engine = re) ∧
    (re.subreddits.index name = none →
      (re.createSubreddit name description).respond = some (Reply.bool true) ∧
      (re.createSubreddit name description).engine.subreddits.index name =
        some { ID := name, Name := name, Description := description, Members := [] } ∧
      (∀ k, k ≠ name →
        (re.createSubreddit name description).engine.subreddits.index k =
          re.subreddits.index k) ∧
      (re.createSubreddit name description).engine.subreddits.len = re.subreddits.len + 1 ∧
      (re.createSubreddit name description).engine.users = re.users ∧
      (re.createSubreddit name description).engine.posts = re.posts ∧
      (re.createSubreddit name description).engine.comments = re.comments) := by
  unfold createSubreddit
  cases hs : re.subreddits.index name with
  | some u => simp [Outcome.reply]
  | none =>
    simp only [Outcome.reply, Option.isSome_none, Bool.false_eq_true, false_implies, true_and,
      forall_true_left, and_true]
    refine ⟨GoMap.index_assign_self _ _ _, ?_, GoMap.len_assign_of_index_none _ _ hs⟩
    intro k hk
    exact GoMap.index_assign_of_ne _ _ hk

/-! ## Votes -/

theorem GoMap.assign_assign {V : Type} (m : GoMap V) (k : String) (v w : V) :
    (m.assign k v).assign k w = m.assign k w := by
  induction m with
  | nil => simp [GoMap.assign]
  | cons kv rest ih =>
    obtain ⟨k₀, v₀⟩ := kv
    by_cases h₀ : k₀ = k
    · simp [GoMap.assign, h₀]
    · simp [GoMap.assign, h₀, ih]

theorem run_append (a b : List (Nat × Message)) :
    ∀ re : RedditEngine, re.run (a ++ b) = (re.run a).run b := by
  induction a with
  | nil => intro re; rfl
  | cons m rest ih =>
    intro re
    obtain ⟨now, msg⟩ := m
    simp only [List.cons_append, RedditEngine.run]
    exact ih _

theorem upvote_post_engine (re : RedditEngine) (userId p : String) (post : Post)
    (h : re.posts.index p = some post) :
    re.upvote userId "Post" p =
      Outcome.reply
        { re with posts := re.posts.assign p { post with Upvotes := incr post.Upvotes } }
        (Reply.code 201) := by
  simp [upvote, h]

theorem upvote_comment_engine (re : RedditEngine) (userId c : String) (comment : Comment)
    (h : re.comments.index c = some comment) :
    re.upvote userId "Comment" c =
      Outcome.reply
        { re with
          comments :=
            re.comments.assign c { comment with Upvotes := incr comment.Upvotes } }
        (Reply.code 202) := by
  have hne : ¬ ("Comment" = "Post") := by decide
  simp [upvote, h, hne]

theorem run_upvotes_post (callers : List (Nat × String)) :
    ∀ (re : RedditEngine) (p : String) (post : Post), re.posts.index p = some post →
      re.run (upvotesBy "Post" p callers) =
        { re with
          posts :=
            re.posts.assign p { post with Upvotes := incr^[callers.length] post.Upvotes } } := by
  induction callers with
  | nil =>
    intro re p post h
    have : re.posts.assign p post = re.posts := GoMap.assign_of_index_some_self _ h
    simp [upvotesBy, RedditEngine.run, this]
  | cons c rest ih =>
    intro re p post h
    have hstep := upvote_post_engine re c.2 p post h
    have hnext : (re.upvote c.2 "Post" p).engine.posts.index p =
        some { post with Upvotes := incr post.Upvotes } := by
      rw [hstep]; exact GoMap.index_assign_self _ _ _
    have := ih (re.upvote c.2 "Post" p).engine p _ hnext
    simp only [upvotesBy, List.map_cons, RedditEngine.run, RedditEngine.Receive] at this ⊢
    rw [this, hstep]
    simp only [Outcome.reply, GoMap.assign_assign, List.length_cons,
      Function.iterate_succ_apply]

theorem run_upvotes_comment (callers : List (Nat × String)) :
    ∀ (re : RedditEngine) (c : String) (comment : Comment),
      re.comments.index c = some comment →
      re.run (upvotesBy "Comment" c callers) =
        { re with
          comments :=
            re.comments.assign c
              { comment with Upvotes := incr^[callers.length] comment.Upvotes } } := by
  induction callers with
  | nil =>
    intro re c comment h
    have : re.comments.assign c comment = re.comments := GoMap.assign_of_index_some_self _ h
    simp [upvotesBy, RedditEngine.run, this]
  | cons u rest ih =>
    intro re c comment h
    have hstep := upvote_comment_engine re u.2 c comment h
    have hnext : (re.upvote u.2 "Comment" c).engine.comments.index c =
        some { comment with Upvotes := incr comment.Upvotes } := by
      rw [hstep]; exact GoMap.index_assign_self _ _ _
    have := ih (re.upvote u.2 "Comment" c).engine c _ hnext
    simp only [upvotesBy, List.map_cons, RedditEngine.run, RedditEngine.Receive] at this ⊢
    rw [this, hstep]
    simp only [Outcome.reply, GoMap.assign_assign, List.length_cons,
      Function.iterate_succ_apply]

theorem iterate_incr_zero (n : Nat) (h : (n : Int) ≤ maxInt) : incr^[n] 0 = (n : Int) := by
  rw [iterate_incr n 0 (by decide) (by decide), zero_add]
  exact wrapInt_of_range _ (le_trans (by decide) (Int.natCast_nonneg n)) h

theorem overflowRun_engine (n : Nat) :
    RedditEngine.empty.run (overflowRun n) =
      { users := [("alice", { ID := "alice", Username := "alice", Karma := 0, Inbox := [] })],
        subreddits :=
          [("golang", { ID := "golang", Name := "golang", Description := "d", Members := [] })],
        posts :=
          [("alice_post_1",
            { ID := "alice_post_1", Title := "Hello", Content := "c", Author := "alice",
              Subreddit := "golang", Upvotes := wrapInt n, Downvotes := 0, CreatedAt := 2 })],
        comments := [] } := by
  have hpre : RedditEngine.empty.run
      [(0, Message.RegisterUser "alice"), (1, Message.CreateSubreddit "golang" "d"),
       (2, Message.CreatePost "Hello" "c" "alice" "golang")] =
      { users := [("alice", { ID := "alice", Username := "alice", Karma := 0, Inbox := [] })],
        subreddits :=
          [("golang", { ID := "golang", Name := "golang", Description := "d", Members := [] })],
        posts :=
          [("alice_post_1",
            { ID := "alice_post_1", Title := "Hello", Content := "c", Author := "alice",
              Subreddit := "golang", Upvotes := 0, Downvotes := 0, CreatedAt := 2 })],
        comments := [] } := by
    decide
  unfold overflowRun
  rw [run_append, hpre, run_upvotes_post _ _ "alice_post_1"
    { ID := "alice_post_1", Title := "Hello", Content := "c", Author := "alice",
      Subreddit := "golang", Upvotes := 0, Downvotes := 0, CreatedAt := 2 } (by decide)]
  rw [List.length_replicate, iterate_incr n 0 (by decide) (by decide), zero_add]
  simp [GoMap.assign]

/-- C5 fails as stated at the largest `int`.  On the store `saturated`, where the post
`alice_post_1` and the comment `bob_comment_1` have `Upvotes = 9223372036854775807`, an
upvote is answered 201 (202) and leaves `Upvotes = -9223372036854775808`, not one more.
And `9223372036854775808` successive upvotes of the freshly created `alice_post_1` leave
its counter at `-9223372036854775808`, not at the number of upvotes. -/
theorem upvote_wraps_at_maxInt :
    (saturated.posts.index "alice_post_1").map (fun p => p.Upvotes) =
      some 9223372036854775807 ∧
    (saturated.upvote "bob" "Post" "alice_post_1").respond = some (Reply.code 201) ∧
    ((saturated.upvote "bob" "Post" "alice_post_1").engine.posts.index "alice_post_1").map
        (fun p => p.Upvotes) = some (-9223372036854775808) ∧
    (saturated.comments.index "bob_comment_1").map (fun c => c.Upvotes) =
      some 9223372036854775807 ∧
    (saturated.upvote "bob" "Comment" "bob_comment_1").respond = some (Reply.code 202) ∧
    ((saturated.upvote "bob" "Comment" "bob_comment_1").engine.comments.index
        "bob_comment_1").map (fun c => c.Upvotes) = some (-9223372036854775808) ∧
    ((RedditEngine.empty.run (overflowRun 9223372036854775808)).posts.index
        "alice_post_1").map (fun p => p.Upvotes) = some (-9223372036854775808) := by
  refine ⟨by decide, by decide, by decide, by decide, by decide, by decide, ?_⟩
  rw [overflowRun_engine]
  decide

/-- C5, amended: for any caller, upvoting an existing post responds 201, replaces that
post's `Upvotes` by `incr` of it, which is exactly one more whenever the counter is below
the largest `int`, and changes no other field of the post, no other post, and no comment,
user or subreddit; upvoting an existing comment responds 202 and does the same to the
comment.  Consequently, after a successful `createPost` (or `createComment`) followed by
upvotes of the new id by any list of at most `2^63 - 1` callers, the target's `Upvotes` is
the number of those upvotes. -/
theorem upvote_existing_target (re : RedditEngine) (userId : String) :
    (∀ (p : String) (post : Post), re.posts.index p = some post →
      (re.upvote userId "Post" p).respond = some (Reply.code 201) ∧
      (re.upvote userId "Post" p).engine.posts.index p =
        some { post with Upvotes := incr post.Upvotes } ∧
      (minInt ≤ post.Upvotes → post.Upvotes < maxInt →
        (re.upvote userId "Post" p).engine.posts.index p =
          some { post with Upvotes := post.Upvotes + 1 }) ∧
      (∀ k, k ≠ p → (re.upvote userId "Post" p).engine.posts.index k = re.posts.index k) ∧
      (re.upvote userId "Post" p).engine.posts.len = re.posts.len ∧
      (re.upvote userId "Post" p).engine.comments = re.comments ∧
      (re.upvote userId "Post" p).engine.users = re.users ∧
      (re.upvote userId "Post" p).engine.subreddits = re.subreddits) ∧
    (∀ (c : String) (comment : Comment), re.comments.index c = some comment →
      (re.upvote userId "Comment" c).respond = some (Reply.code 202) ∧
      (re.upvote userId "Comment" c).engine.comments.index c =
        some { comment with Upvotes := incr comment.Upvotes } ∧
      (minInt ≤ comment.Upvotes → comment.Upvotes < maxInt →
        (re.upvote userId "Comment" c).engine.comments.index c =
          some { comment with Upvotes := comment.Upvotes + 1 }) ∧
      (∀ k, k ≠ c →
        (re.upvote userId "Comment" c).engine.comments.index k = re.comments.index k) ∧
      (re.upvote userId "Comment" c).engine.comments.len = re.comments.len ∧
      (re.upvote userId "Comment" c).engine.posts = re.posts ∧
      (re.upvote userId "Comment" c).engine.users = re.users ∧
      (re.upvote userId "Comment" c).engine.subreddits = re.subreddits) ∧
    (∀ (now : Nat) (title content author subreddit : String) (callers : List (Nat × String)),
      (re.createPost now title content author subreddit).respond = some (Reply.code 200) →
      (callers.length : Int) ≤ 9223372036854775807 →
      ∃ post : Post,
        ((re.createPost now title content author subreddit).engine.run
            (upvotesBy "Post" (author ++ "_post_" ++ Nat.repr (re.posts.len + 1))
              callers)).posts.index
          (author ++ "_post_" ++ Nat.repr (re.posts.len + 1)) = some post ∧
        post.Upvotes = callers.length ∧ post.Downvotes = 0) ∧
    (∀ (now : Nat) (content author postId parentId : String) (callers : List (Nat × String)),
      (re.createComment now content author postId parentId).respond = some (Reply.code 200) →
      (callers.length : Int) ≤ 9223372036854775807 →
      ∃ comment : Comment,
        ((re.createComment now content author postId parentId).engine.run
            (upvotesBy "Comment" (author ++ "_comment_" ++ Nat.repr (re.comments.len + 1))
              callers)).comments.index
          (author ++ "_comment_" ++ Nat.repr (re.comments.len + 1)) = some comment ∧
        comment.Upvotes = callers.length ∧ comment.Downvotes = 0) := by
  refine ⟨?_, ?_, ?_, ?_⟩
  · intro p post h
    rw [upvote_post_engine re userId p post h]
    refine ⟨rfl, GoMap.index_assign_self _ _ _, ?_, ?_, GoMap.len_assign_of_index_some _ _ h,
      rfl, rfl, rfl⟩
    · intro h₁ h₂
      rw [← incr_of_lt_max _ h₁ h₂]
      exact GoMap.index_assign_self _ _ _
    · intro k hk
      exact GoMap.index_assign_of_ne _ _ hk
  · intro c comment h
    rw [upvote_comment_engine re userId c comment h]
    refine ⟨rfl, GoMap.index_assign_self _ _ _, ?_, ?_, GoMap.len_assign_of_index_some _ _ h,
      rfl, rfl, rfl⟩
    · intro h₁ h₂
      rw [← incr_of_lt_max _ h₁ h₂]
      exact GoMap.index_assign_self _ _ _
    · intro k hk
      exact GoMap.index_assign_of_ne _ _ hk
  · intro now title content author subreddit callers hok hlen
    have hnew : (re.createPost now title content author subreddit).engine.posts.index
        (author ++ "_post_" ++ Nat.repr (re.posts.len + 1)) =
        some { ID := author ++ "_post_" ++ Nat.repr (re.posts.len + 1), Title := title,
               Content := content, Author := author, Subreddit := subreddit,
               Upvotes := 0, Downvotes := 0, CreatedAt := now } := by
      revert hok
      unfold createPost
      cases hu : re.users.index author <;> cases hs : re.subreddits.index subreddit <;>
        simp [Outcome.reply, postIdOf, GoMap.index_assign_self]
    rw [run_upvotes_post callers _ _ _ hnew]
    refine ⟨_, GoMap.index_assign_self _ _ _, ?_, rfl⟩
    exact iterate_incr_zero _ hlen
  · intro now content author postId parentId callers hok hlen
    have hnew : (re.createComment now content author postId parentId).engine.comments.index
        (author ++ "_comment_" ++ Nat.repr (re.comments.len + 1)) =
        some { ID := author ++ "_comment_" ++ Nat.repr (re.comments.len + 1),
               Content := content, Author := author, Post := postId,
               ParentID := if parentId ≠ "" then some parentId else none,
               Upvotes := 0, Downvotes := 0, CreatedAt := now } := by
      revert hok
      unfold createComment
      cases hu : re.users.index author <;> cases hp : re.posts.index postId <;>
        simp [Outcome.reply, commentIdOf, GoMap.index_assign_self]
    rw [run_upvotes_comment callers _ _ _ hnew]
    refine ⟨_, GoMap.index_assign_self _ _ _, ?_, rfl⟩
    exact iterate_incr_zero _ hlen

/-- C5, amended, on the store `feedExample`: the post `v_post_1` has no votes, and an
upvote by `u` leaves it with exactly one. -/
theorem upvote_existing_target_witness :
    feedExample.posts.index "v_post_1" =
      some { ID := "v_post_1", Title := "in A", Content := "x", Author := "v",
             Subreddit := "A", Upvotes := 0, Downvotes := 0, CreatedAt := 8 } ∧
    (feedExample.upvote "u" "Post" "v_post_1").respond = some (Reply.code 201) ∧
    (feedExample.upvote "u" "Post" "v_post_1").engine.posts.index "v_post_1" =
      some { ID := "v_post_1", Title := "in A", Content := "x", Author := "v",
             Subreddit := "A", Upvotes := 1, Downvotes := 0, CreatedAt := 8 } :=
  ⟨by decide,
    ((upvote_existing_target feedExample "u").1 "v_post_1"
      { ID := "v_post_1", Title := "in A", Content := "x", Author := "v",
        Subreddit := "A", Upvotes := 0, Downvotes := 0, CreatedAt := 8 } (by decide)).1,
    ((upvote_existing_target feedExample "u").1 "v_post_1"
      { ID := "v_post_1", Title := "in A", Content := "x", Author := "v",
        Subreddit := "A", Upvotes := 0, Downvotes := 0, CreatedAt := 8 } (by decide)).2.2.1
      (by decide) (by decide)⟩

theorem GoMap.index_mapValues {V W : Type} (f : V → W) (m : GoMap V) (k : String) :
    (m.mapValues f).index k = (m.index k).map f := by
  induction m with
  | nil => simp [GoMap.mapValues, GoMap.index]
  | cons kv rest ih =>
    obtain ⟨k₀, v₀⟩ := kv
    by_cases h₀ : k₀ = k
    · simp [GoMap.mapValues, GoMap.index, h₀]
    · simpa [GoMap.mapValues, GoMap.index, h₀] using ih

theorem GoMap.mapValues_assign {V W : Type} (f : V → W) (m : GoMap V) (k : String) (v : V) :
    (m.assign k v).mapValues f = (m.mapValues f).assign k (f v) := by
  induction m with
  | nil => simp [GoMap.mapValues, GoMap.assign]
  | cons kv rest ih =>
    obtain ⟨k₀, v₀⟩ := kv
    by_cases h₀ : k₀ = k
    · simp [GoMap.mapValues, GoMap.assign, h₀]
    · simpa [GoMap.mapValues, GoMap.assign, h₀] using ih

theorem GoMap.mapValues_mapValues_id {V : Type} (f : V → V) (hf : ∀ v, f (f v) = v)
    (m : GoMap V) : (m.mapValues f).mapValues f = m := by
  induction m with
  | nil => rfl
  | cons kv rest ih =>
    simp only [GoMap.mapValues, List.map_cons, hf] at ih ⊢
    rw [ih]

theorem swapVotes_swapVotes (re : RedditEngine) : re.swapVotes.swapVotes = re := by
  have hp : ∀ p : Post, p.swapVotes.swapVotes = p := fun p => rfl
  have hc : ∀ c : Comment, c.swapVotes.swapVotes = c := fun c => rfl
  simp [RedditEngine.swapVotes, GoMap.mapValues_mapValues_id _ hp,
    GoMap.mapValues_mapValues_id _ hc]

/-- C6 fails as stated at the largest `int`: on the store `saturated`, where the post
`alice_post_1` and the comment `bob_comment_1` have `Downvotes = 9223372036854775807`, a
downvote is answered 201 (202) and leaves `Downvotes = -9223372036854775808`, not one
more. -/
theorem downvote_wraps_at_maxInt :
    (saturated.posts.index "alice_post_1").map (fun p => p.Downvotes) =
      some 9223372036854775807 ∧
    (saturated.downvote "bob" "Post" "alice_post_1").respond = some (Reply.code 201) ∧
    ((saturated.downvote "bob" "Post" "alice_post_1").engine.posts.index "alice_post_1").map
        (fun p => (p.Upvotes, p.Downvotes)) =
      some (9223372036854775807, -9223372036854775808) ∧
    (saturated.comments.index "bob_comment_1").map (fun c => c.Downvotes) =
      some 9223372036854775807 ∧
    (saturated.downvote "bob" "Comment" "bob_comment_1").respond = some (Reply.code 202) ∧
    ((saturated.downvote "bob" "Comment" "bob_comment_1").engine.comments.index
        "bob_comment_1").map (fun c => (c.Upvotes, c.Downvotes)) =
      some (9223372036854775807, -9223372036854775808) := by
  decide

/-- C6, amended: `downvote` answers exactly as `upvote` does, and it is `upvote` with the
two counters exchanged: exchanging the counters of every post and comment, upvoting, and
exchanging them back gives the engine after `downvote`.  In particular a downvote of an
existing post (comment) replaces its `Downvotes` by `incr` of it, which is exactly one
more whenever the counter is below the largest `int`, and leaves its `Upvotes` and every
other field as they were, and users and subreddits are not touched. -/
theorem downvote_eq_swapped_upvote (re : RedditEngine) (userId mediaType targetId : String) :
    (re.downvote userId mediaType targetId).respond =
      (re.upvote userId mediaType targetId).respond ∧
    (re.downvote userId mediaType targetId).written =
      (re.upvote userId mediaType targetId).written ∧
    (re.downvote userId mediaType targetId).engine =
      (re.swapVotes.upvote userId mediaType targetId).engine.swapVotes ∧
    (∀ post : Post, re.posts.index targetId = some post →
      (re.downvote userId "Post" targetId).respond = some (Reply.code 201) ∧
      (re.downvote userId "Post" targetId).engine.posts.index targetId =
        some { post with Downvotes := incr post.Downvotes } ∧
      (minInt ≤ post.Downvotes → post.Downvotes < maxInt →
        (re.downvote userId "Post" targetId).engine.posts.index targetId =
          some { post with Downvotes := post.Downvotes + 1 })) ∧
    (∀ comment : Comment, re.comments.index targetId = some comment →
      (re.downvote userId "Comment" targetId).respond = some (Reply.code 202) ∧
      (re.downvote userId "Comment" targetId).engine.comments.index targetId =
        some { comment with Downvotes := incr comment.Downvotes } ∧
      (minInt ≤ comment.Downvotes → comment.Downvotes < maxInt →
        (re.downvote userId "Comment" targetId).engine.comments.index targetId =
          some { comment with Downvotes := comment.Downvotes + 1 })) ∧
    (re.downvote userId mediaType targetId).engine.users = re.users ∧
    (re.downvote userId mediaType targetId).engine.subreddits = re.subreddits := by
  have hne : ¬ ("Comment" = "Post") := by decide
  have hp : ∀ p : Post, p.swapVotes.swapVotes = p := fun p => rfl
  have hc : ∀ c : Comment, c.swapVotes.swapVotes = c := fun c => rfl
  refine ⟨?_, ?_, ?_, ?_, ?_, ?_, ?_⟩
  · unfold downvote upvote
    by_cases h₁ : mediaType = "Post"
    · cases hp : re.posts.index targetId <;> simp [h₁, hp, Outcome.reply]
    · by_cases h₂ : mediaType = "Comment"
      · cases hc : re.comments.index targetId <;>
          simp [h₁, h₂, hc, hne, Outcome.reply, Outcome.silent]
      · simp [h₁, h₂, Outcome.reply]
  · unfold downvote upvote
    by_cases h₁ : mediaType = "Post"
    · cases hp : re.posts.index targetId <;> simp [h₁, hp, Outcome.reply]
    · by_cases h₂ : mediaType = "Comment"
      · cases hc : re.comments.index targetId <;>
          simp [h₁, h₂, hc, hne, Outcome.reply, Outcome.silent]
      · simp [h₁, h₂, Outcome.reply]
  · unfold downvote upvote
    by_cases h₁ : mediaType = "Post"
    · cases hq : re.posts.index targetId with
      | none =>
        simp [h₁, hq, Outcome.reply, RedditEngine.swapVotes, GoMap.index_mapValues,
          GoMap.mapValues_mapValues_id _ hp, GoMap.mapValues_mapValues_id _ hc]
      | some post =>
        simp [h₁, hq, Outcome.reply, RedditEngine.swapVotes, GoMap.index_mapValues,
          GoMap.mapValues_assign, GoMap.mapValues_mapValues_id _ hp,
          GoMap.mapValues_mapValues_id _ hc, Post.swapVotes]
    · by_cases h₂ : mediaType = "Comment"
      · cases hq : re.comments.index targetId with
        | none =>
          simp [h₁, h₂, hq, hne, Outcome.silent, RedditEngine.swapVotes,
            GoMap.index_mapValues, GoMap.mapValues_mapValues_id _ hp,
            GoMap.mapValues_mapValues_id _ hc]
        | some comment =>
          simp [h₁, h₂, hq, hne, Outcome.reply, RedditEngine.swapVotes,
            GoMap.index_mapValues, GoMap.mapValues_assign,
            GoMap.mapValues_mapValues_id _ hp, GoMap.mapValues_mapValues_id _ hc,
            Comment.swapVotes]
      · simp [h₁, h₂, Outcome.reply, RedditEngine.swapVotes,
          GoMap.mapValues_mapValues_id _ hp, GoMap.mapValues_mapValues_id _ hc]
  · intro post h
    refine ⟨by simp [downvote, h, Outcome.reply],
      by simp [downvote, h, Outcome.reply, GoMap.index_assign_self], ?_⟩
    intro h₁ h₂
    rw [← incr_of_lt_max _ h₁ h₂]
    simp [downvote, h, Outcome.reply, GoMap.index_assign_self]
  · intro comment h
    refine ⟨by simp [downvote, h, hne, Outcome.reply],
      by simp [downvote, h, hne, Outcome.reply, GoMap.index_assign_self], ?_⟩
    intro h₁ h₂
    rw [← incr_of_lt_max _ h₁ h₂]
    simp [downvote, h, hne, Outcome.reply, GoMap.index_assign_self]
  · unfold downvote
    by_cases h₁ : mediaType = "Post"
    · cases hq : re.posts.index targetId <;> simp [h₁, hq, Outcome.reply]
    · by_cases h₂ : mediaType = "Comment"
      · cases hq : re.comments.index targetId <;>
          simp [h₁, h₂, hq, hne, Outcome.reply, Outcome.silent]
      · simp [h₁, h₂, Outcome.reply]
  · unfold downvote
    by_cases h₁ : mediaType = "Post"
    · cases hq : re.posts.index targetId <;> simp [h₁, hq, Outcome.reply]
    · by_cases h₂ : mediaType = "Comment"
      · cases hq : re.comments.index targetId <;>
          simp [h₁, h₂, hq, hne, Outcome.reply, Outcome.silent]
      · simp [h₁, h₂, Outcome.reply]

/-- C6, amended, on the store `feedExample`: a downvote of the post `v_post_1`, which has
no votes, is answered 201 and leaves it with one downvote and no upvote. -/
theorem downvote_eq_swapped_upvote_witness :
    feedExample.posts.index "v_post_1" =
      some { ID := "v_post_1", Title := "in A", Content := "x", Author := "v",
             Subreddit := "A", Upvotes := 0, Downvotes := 0, CreatedAt := 8 } ∧
    (feedExample.downvote "u" "Post" "v_post_1").respond =
      (feedExample.upvote "u" "Post" "v_post_1").respond ∧
    (feedExample.downvote "u" "Post" "v_post_1").respond = some (Reply.code 201) ∧
    (feedExample.downvote "u" "Post" "v_post_1").engine.posts.index "v_post_1" =
      some { ID := "v_post_1", Title := "in A", Content := "x", Author := "v",
             Subreddit := "A", Upvotes := 0, Downvotes := 1, CreatedAt := 8 } :=
  ⟨by decide,
    (downvote_eq_swapped_upvote feedExample "u" "Post" "v_post_1").1,
    ((downvote_eq_swapped_upvote feedExample "u" "Post" "v_post_1").2.2.2.1
      { ID := "v_post_1", Title := "in A", Content := "x", Author := "v",
        Subreddit := "A", Upvotes := 0, Downvotes := 0, CreatedAt := 8 } (by decide)).1,
    ((downvote_eq_swapped_upvote feedExample "u" "Post" "v_post_1").2.2.2.1
      { ID := "v_post_1", Title := "in A", Content := "x", Author := "v",
        Subreddit := "A", Upvotes := 0, Downvotes := 0, CreatedAt := 8 } (by decide)).2.2
      (by decide) (by decide)⟩

/-- C7: a vote with media type "Comment" on an id that is not a comment makes no call to
`context.Respond` at all (the caller gets no TargetNotFound), whereas the sibling path for
"Post" with an id that is not a post responds 301; the engine is unchanged either way. -/
theorem vote_missing_comment_no_reply (re : RedditEngine) (userId targetId : String)
    (hc : re.comments.index targetId = none) :
    (re.upvote userId "Comment" targetId).respond = none ∧
    (re.upvote userId "Comment" targetId).engine = re ∧
    (re.downvote userId "Comment" targetId).respond = none ∧
    (re.downvote userId "Comment" targetId).engine = re ∧
    (re.posts.index targetId = none →
      (re.upvote userId "Post" targetId).respond = some (Reply.code 301) ∧
      (re.upvote userId "Post" targetId).engine = re ∧
      (re.downvote userId "Post" targetId).respond = some (Reply.code 301) ∧
      (re.downvote userId "Post" targetId).engine = re) := by
  have hne : ¬ ("Comment" = "Post") := by decide
  refine ⟨?_, ?_, ?_, ?_, ?_⟩
  · simp [upvote, hc, hne, Outcome.silent]
  · simp [upvote, hc, hne, Outcome.silent]
  · simp [downvote, hc, hne, Outcome.silent]
  · simp [downvote, hc, hne, Outcome.silent]
  · intro hp
    simp [upvote, downvote, hp, Outcome.reply]

/-- C7 at a concrete input: on the empty engine, `Upvote("bob", "Comment",
"bob_comment_1")` and the same downvote get no response, while the "Post" votes on a
missing id get 301. -/
theorem vote_missing_comment_no_reply_witness :
    RedditEngine.empty.comments.index "bob_comment_1" = none ∧
    ((RedditEngine.empty.upvote "bob" "Comment" "bob_comment_1").respond = none ∧
     (RedditEngine.empty.upvote "bob" "Comment" "bob_comment_1").engine = RedditEngine.empty ∧
     (RedditEngine.empty.downvote "bob" "Comment" "bob_comment_1").respond = none ∧
     (RedditEngine.empty.downvote "bob" "Comment" "bob_comment_1").engine =
       RedditEngine.empty ∧
     (RedditEngine.empty.posts.index "bob_comment_1" = none →
      (RedditEngine.empty.upvote "bob" "Post" "bob_comment_1").respond =
        some (Reply.code 301) ∧
      (RedditEngine.empty.upvote "bob" "Post" "bob_comment_1").engine = RedditEngine.empty ∧
      (RedditEngine.empty.downvote "bob" "Post" "bob_comment_1").respond =
        some (Reply.code 301) ∧
      (RedditEngine.empty.downvote "bob" "Post" "bob_comment_1").engine =
        RedditEngine.empty)) :=
  ⟨rfl, vote_missing_comment_no_reply RedditEngine.empty "bob" "bob_comment_1" rfl⟩

/-- C8: a vote whose media type is neither "Post" nor "Comment" is not dropped silently.
It takes the `else` of the test `mediaType == "Comment"`, the branch that logs "No such
comment with ID ..." and answers 302, and it does so without looking the id up, whether or
not the id is a comment; the engine is unchanged. -/
theorem vote_unknown_mediaType (re : RedditEngine) (userId mediaType targetId : String)
    (h₁ : mediaType ≠ "Post") (h₂ : mediaType ≠ "Comment") :
    (re.upvote userId mediaType targetId).respond = some (Reply.code 302) ∧
    (re.upvote userId mediaType targetId).engine = re ∧
    (re.downvote userId mediaType targetId).respond = some (Reply.code 302) ∧
    (re.downvote userId mediaType targetId).engine = re := by
  simp [upvote, downvote, h₁, h₂, Outcome.reply]

/-- C8 on the store after the run `twoAuthors`: a vote of media type "comment", in lower
case, on the existing comment `alice_comment_1` is answered 302. -/
theorem vote_unknown_mediaType_witness :
    "comment" ≠ "Post" ∧ "comment" ≠ "Comment" ∧
    ((RedditEngine.empty.run twoAuthors).comments.index "alice_comment_1").isSome = true ∧
    ((RedditEngine.empty.run twoAuthors).upvote "bob" "comment" "alice_comment_1").respond =
      some (Reply.code 302) ∧
    ((RedditEngine.empty.run twoAuthors).upvote "bob" "comment" "alice_comment_1").engine =
      RedditEngine.empty.run twoAuthors ∧
    ((RedditEngine.empty.run twoAuthors).downvote "bob" "comment" "alice_comment_1").respond =
      some (Reply.code 302) ∧
    ((RedditEngine.empty.run twoAuthors).downvote "bob" "comment" "alice_comment_1").engine =
      RedditEngine.empty.run twoAuthors :=
  ⟨by decide, by decide, by decide,
    vote_unknown_mediaType (RedditEngine.empty.run twoAuthors) "bob" "comment"
      "alice_comment_1" (by decide) (by decide)⟩

/-! ## The feed -/

theorem feedStep_of_inFeed (re : RedditEngine) (user : User) (acc : List PostInfo)
    (post : Post) (hin : re.inFeedOf user.ID post = true)
    (ha : (re.users.index post.Author).isSome = true) :
    ∃ e, re.Summarises post e ∧ feedStep re user acc post = acc ++ [e] := by
  unfold RedditEngine.inFeedOf at hin
  cases hs : re.subreddits.index post.Subreddit with
  | none => simp [hs] at hin
  | some subreddit =>
    cases hm : subreddit.Members.index user.ID with
    | none => simp [hs, hm] at hin
    | some m =>
      cases hau : re.users.index post.Author with
      | none => simp [hau] at ha
      | some author =>
        exact ⟨_, ⟨subreddit, author, hs, hau, rfl⟩, by simp [feedStep, hs, hm, hau]⟩

theorem feedStep_of_not_inFeed (re : RedditEngine) (user : User) (acc : List PostInfo)
    (post : Post) (hin : re.inFeedOf user.ID post = false) :
    feedStep re user acc post = acc := by
  unfold RedditEngine.inFeedOf at hin
  cases hs : re.subreddits.index post.Subreddit with
  | none => simp [feedStep, hs]
  | some subreddit =>
    cases hm : subreddit.Members.index user.ID with
    | none => simp [feedStep, hs, hm]
    | some m => simp [hs, hm] at hin

theorem feed_loop (re : RedditEngine) (user : User) :
    ∀ (posts : GoMap Post) (acc : List PostInfo),
      (∀ kv ∈ posts, (re.users.index kv.2.Author).isSome = true) →
      ∃ entries,
        posts.foldl (fun acc kv => feedStep re user acc kv.2) acc = acc ++ entries ∧
        List.Forall₂ (fun kv e => re.Summarises kv.2 e)
          (posts.filter (fun kv => re.inFeedOf user.ID kv.2)) entries := by
  intro posts
  induction posts with
  | nil => intro acc _; exact ⟨[], by simp, by simp⟩
  | cons kv rest ih =>
    intro acc hrefs
    have hrest : ∀ kv' ∈ rest, (re.users.index kv'.2.Author).isSome = true :=
      fun kv' h' => hrefs kv' (List.mem_cons_of_mem _ h')
    cases hin : re.inFeedOf user.ID kv.2 with
    | false =>
      obtain ⟨entries, hfold, hall⟩ := ih acc hrest
      refine ⟨entries, ?_, ?_⟩
      · simp only [List.foldl_cons, feedStep_of_not_inFeed re user acc kv.2 hin, hfold]
      · simpa [List.filter_cons, hin] using hall
    | true =>
      obtain ⟨e, hsum, hstep⟩ :=
        feedStep_of_inFeed re user acc kv.2 hin (hrefs kv (List.mem_cons_self _ _))
      obtain ⟨entries, hfold, hall⟩ := ih (acc ++ [e]) hrest
      refine ⟨e :: entries, ?_, ?_⟩
      · simp only [List.foldl_cons, hstep, hfold, List.append_assoc, List.singleton_append]
      · have hcons : List.Forall₂ (fun kv e => re.Summarises kv.2 e)
            (kv :: rest.filter (fun kv => re.inFeedOf user.ID kv.2)) (e :: entries) :=
          List.Forall₂.cons hsum hall
        simpa [List.filter_cons, hin] using hcons

/-- C9: when `username` is a user (and every post's author pointer has a target),
`getUserFeed` responds 200, leaves the engine unchanged, and writes a success envelope
whose `posts` are, up to order, in one-to-one correspondence with the posts whose
subreddit has the user's id in its membership set: each such post has its own entry, made
of the subreddit's name, the post's title and the author's username, and there is no other
entry. -/
theorem getUserFeed_correct (re : RedditEngine) (username : String) (user : User)
    (hu : re.users.index username = some user) (hrefs : re.AuthorsResolve) :
    (re.getUserFeed username).respond = some (Reply.code 200) ∧
    (re.getUserFeed username).engine = re ∧
    ∃ entries paired : List PostInfo,
      (re.getUserFeed username).written = some (JSONFeed (Data.postsMap entries)) ∧
      entries.Perm paired ∧
      List.Forall₂ (fun kv e => re.Summarises kv.2 e)
        (re.posts.filter (fun kv => re.inFeedOf user.ID kv.2)) paired := by
  obtain ⟨entries, hfold, hall⟩ := feed_loop re user re.posts [] hrefs
  refine ⟨?_, ?_, entries, entries, ?_, List.Perm.refl _, hall⟩
  · simp [getUserFeed, hu]
  · simp [getUserFeed, hu]
  · simp only [getUserFeed, hu]
    rw [hfold]
    simp

theorem feedExample_authorsResolve : feedExample.AuthorsResolve := by
  unfold RedditEngine.AuthorsResolve
  decide

/-- C9 on the three-subreddit store: `u` has joined `A` and `B` but not `C`, every post's
author is a user, and the feed of `u` is in one-to-one correspondence with the posts in
`A` and `B`. -/
theorem getUserFeed_correct_witness :
    feedExample.users.index "u" =
      some { ID := "u", Username := "u", Karma := 0, Inbox := [] } ∧
    feedExample.AuthorsResolve ∧
    ((feedExample.getUserFeed "u").respond = some (Reply.code 200) ∧
     (feedExample.getUserFeed "u").engine = feedExample ∧
     ∃ entries paired : List PostInfo,
       (feedExample.getUserFeed "u").written = some (JSONFeed (Data.postsMap entries)) ∧
       entries.Perm paired ∧
       List.Forall₂ (fun kv e => feedExample.Summarises kv.2 e)
         (feedExample.posts.filter (fun kv => feedExample.inFeedOf "u" kv.2)) paired) :=
  ⟨by decide, feedExample_authorsResolve,
    getUserFeed_correct feedExample "u" { ID := "u", Username := "u", Karma := 0, Inbox := [] }
      (by decide) feedExample_authorsResolve⟩

/-- C10: from the empty store the six steps of the scenario are answered `true`, `true`,
`true`, 200, 200, 201; afterwards `alice_post_1` has 1 upvote and 0 downvotes, the feed of
alice is the single entry (golang, Hello, alice) and the feed of bob is empty. -/
theorem scenario_alice_bob (d c : String) (now : Nat) :
    RedditEngine.empty.trace (scenario d c) =
      [some (Reply.bool true), some (Reply.bool true), some (Reply.bool true),
       some (Reply.code 200), some (Reply.code 200), some (Reply.code 201)] ∧
    ((RedditEngine.empty.run (scenario d c)).posts.index "alice_post_1").map
        (fun post => (post.Upvotes, post.Downvotes)) = some (1, 0) ∧
    (RedditEngine.empty.run (scenario d c)).posts.len = 1 ∧
    (((RedditEngine.empty.run (scenario d c)).Receive now (Message.GetUserFeed "alice")).written =
      some (JSONFeed (Data.postsMap
        [{ subreddit := "golang", title := "Hello", author := "alice" }]))) ∧
    (((RedditEngine.empty.run (scenario d c)).Receive now (Message.GetUserFeed "alice")).respond =
      some (Reply.code 200)) ∧
    (((RedditEngine.empty.run (scenario d c)).Receive now (Message.GetUserFeed "bob")).written =
      some (JSONFeed (Data.postsMap []))) ∧
    (((RedditEngine.empty.run (scenario d c)).Receive now (Message.GetUserFeed "bob")).respond =
      some (Reply.code 200)) := by
  have h1 : Nat.repr 1 = "1" := by decide
  simp [scenario, RedditEngine.trace, RedditEngine.run, RedditEngine.Receive, registerUser,
    createSubreddit, joinSubreddit, createPost, upvote, getUserFeed, feedStep, Outcome.reply,
    RedditEngine.empty, GoMap.index, GoMap.assign, GoMap.len, postIdOf, h1, JSONFeed,
    incr_zero]

/-! ## Membership -/

theorem GoMap.isSome_index_assign {V : Type} (m : GoMap V) (k k' : String) (v : V) :
    ((m.assign k v).index k').isSome = true ↔ k' = k ∨ (m.index k').isSome = true := by
  by_cases h : k' = k
  · subst h
    simp [GoMap.index_assign_self]
  · simp [GoMap.index_assign_of_ne m v h, h]

theorem GoMap.index_delete {V : Type} (m : GoMap V) (k k' : String) :
    (m.delete k).index k' = if k' = k then none else m.index k' := by
  induction m with
  | nil => simp [GoMap.delete, GoMap.index]
  | cons kv rest ih =>
    obtain ⟨k₀, v₀⟩ := kv
    simp only [GoMap.delete] at ih
    by_cases h₀ : k₀ = k
    · subst h₀
      by_cases h₁ : k' = k₀
      · simpa [GoMap.delete, GoMap.index, h₁] using ih
      · have h₂ : ¬ k₀ = k' := fun h => h₁ h.symm
        simpa [GoMap.delete, GoMap.index, h₁, h₂] using ih
    · by_cases h₁ : k₀ = k'
      · subst h₁
        simp [GoMap.delete, GoMap.index, h₀]
      · simpa [GoMap.delete, GoMap.index, h₀, h₁] using ih

theorem GoMap.delete_of_index_none {V : Type} (m : GoMap V) (k : String)
    (h : m.index k = none) : m.delete k = m := by
  induction m with
  | nil => rfl
  | cons kv rest ih =>
    obtain ⟨k₀, v₀⟩ := kv
    by_cases h₀ : k₀ = k
    · simp [GoMap.index, h₀] at h
    · simp only [GoMap.index, h₀, if_false] at h
      have hrest : List.filter (fun kv => decide (kv.1 ≠ k)) rest = rest := ih h
      have hhead : List.filter (fun kv : String × V => decide (kv.1 ≠ k)) ((k₀, v₀) :: rest) =
          (k₀, v₀) :: List.filter (fun kv : String × V => decide (kv.1 ≠ k)) rest :=
        List.filter_cons_of_pos (by simpa using h₀)
      show List.filter (fun kv => decide (kv.1 ≠ k)) ((k₀, v₀) :: rest) = (k₀, v₀) :: rest
      rw [hhead, hrest]

/-- C11: `joinSubreddit` is idempotent: a second identical call right after the first
gives the same response as the first and leaves the engine exactly as the first left it. -/
theorem joinSubreddit_idempotent (re : RedditEngine) (username subredditName : String) :
    ((re.joinSubreddit username subredditName).engine.joinSubreddit username
        subredditName).engine = (re.joinSubreddit username subredditName).engine ∧
    ((re.joinSubreddit username subredditName).engine.joinSubreddit username
        subredditName).respond = (re.joinSubreddit username subredditName).respond := by
  cases hu : re.users.index username with
  | none => simp [joinSubreddit, hu, Outcome.reply]
  | some user =>
    cases hs : re.subreddits.index subredditName with
    | none => simp [joinSubreddit, hu, hs, Outcome.reply]
    | some subreddit =>
      have hm : (subreddit.Members.assign username username).assign username username =
          subreddit.Members.assign username username :=
        GoMap.assign_of_index_some_self _ (GoMap.index_assign_self _ _ _)
      have hsub : (re.subreddits.assign subredditName
            { subreddit with Members := subreddit.Members.assign username username }).assign
            subredditName
            { subreddit with Members := subreddit.Members.assign username username } =
          re.subreddits.assign subredditName
            { subreddit with Members := subreddit.Members.assign username username } :=
        GoMap.assign_of_index_some_self _ (GoMap.index_assign_self _ _ _)
      simp [joinSubreddit, hu, hs, Outcome.reply, GoMap.index_assign_self, hm, hsub]

/-- C12: `joinSubreddit` responds 301 when the user is missing (whatever the subreddit),
302 when only the subreddit is missing, 200 otherwise; on an error the engine is
unchanged; on success the named subreddit keeps its other fields and its membership set
becomes the old one plus `username`, every other subreddit keeps its binding, and users,
posts and comments are the same. -/
theorem joinSubreddit_contract (re : RedditEngine) (username subredditName : String) :
    (re.users.index username = none →
      (re.joinSubreddit username subredditName).respond = some (Reply.code 301) ∧
      (re.joinSubreddit username subredditName).engine = re) ∧
    ((re.users.index username).isSome = true → re.subreddits.index subredditName = none →
      (re.joinSubreddit username subredditName).respond = some (Reply.code 302) ∧
      (re.joinSubreddit username subredditName).engine = re) ∧
    (∀ subreddit : Subreddit, (re.users.index username).isSome = true →
      re.subreddits.index subredditName = some subreddit →
      (re.joinSubreddit username subredditName).respond = some (Reply.code 200) ∧
      (∃ members : GoMap String,
        (re.joinSubreddit username subredditName).engine.subreddits.index subredditName =
          some { subreddit with Members := members } ∧
        ∀ k, (members.index k).isSome = true ↔
          k = username ∨ (subreddit.Members.index k).isSome = true) ∧
      (∀ k, k ≠ subredditName →
        (re.joinSubreddit username subredditName).engine.subreddits.index k =
          re.subreddits.index k) ∧
      (re.joinSubreddit username subredditName).engine.subreddits.len = re.subreddits.len ∧
      (re.joinSubreddit username subredditName).engine.users = re.users ∧
      (re.joinSubreddit username subredditName).engine.posts = re.posts ∧
      (re.joinSubreddit username subredditName).engine.comments = re.comments) := by
  refine ⟨?_, ?_, ?_⟩
  · intro hu
    simp [joinSubreddit, hu, Outcome.reply]
  · intro hu hs
    cases hu' : re.users.index username with
    | none => simp [hu'] at hu
    | some user => simp [joinSubreddit, hu', hs, Outcome.reply]
  · intro subreddit hu hs
    cases hu' : re.users.index username with
    | none => simp [hu'] at hu
    | some user =>
      simp only [joinSubreddit, hu', hs, Outcome.reply, true_and, and_true]
      refine ⟨⟨_, GoMap.index_assign_self _ _ _, ?_⟩, ?_, ?_⟩
      · intro k
        exact GoMap.isSome_index_assign _ _ _ _
      · intro k hk
        exact GoMap.index_assign_of_ne _ _ hk
      · exact GoMap.len_assign_of_index_some _ _ hs

/-- C13: `leaveSubreddit` never looks the user up.  When the subreddit exists it responds
200, the subreddit keeps its other fields and its membership set becomes the old one minus
`username`, and every other subreddit, all users, posts and comments are the same; if
`username` was not a member the engine is exactly unchanged; no key of `subreddits` is
lost.  When the subreddit does not exist the engine is unchanged and the response is 301,
not the code for a missing subreddit: `joinSubreddit` and `createPost` answer a missing
subreddit with 302 and use 301 for a missing user. -/
theorem leaveSubreddit_contract (re : RedditEngine) (username subredditName : String) :
    (re.subreddits.index subredditName = none →
      (re.leaveSubreddit username subredditName).respond = some (Reply.code 301) ∧
      (re.leaveSubreddit username subredditName).engine = re ∧
      ((re.users.index username).isSome = true →
        (re.joinSubreddit username subredditName).respond = some (Reply.code 302) ∧
        ∀ (now : Nat) (title content : String),
          (re.createPost now title content username subredditName).respond =
            some (Reply.code 302)) ∧
      (re.users.index username = none →
        (re.joinSubreddit username subredditName).respond = some (Reply.code 301) ∧
        ∀ (now : Nat) (title content : String),
          (re.createPost now title content username subredditName).respond =
            some (Reply.code 301))) ∧
    (∀ subreddit : Subreddit, re.subreddits.index subredditName = some subreddit →
      (re.leaveSubreddit username subredditName).respond = some (Reply.code 200) ∧
      (∃ members : GoMap String,
        (re.leaveSubreddit username subredditName).engine.subreddits.index subredditName =
          some { subreddit with Members := members } ∧
        ∀ k, (members.index k).isSome = true ↔
          k ≠ username ∧ (subreddit.Members.index k).isSome = true) ∧
      (subreddit.Members.index username = none →
        (re.leaveSubreddit username subredditName).engine = re) ∧
      (∀ k, k ≠ subredditName →
        (re.leaveSubreddit username subredditName).engine.subreddits.index k =
          re.subreddits.index k) ∧
      (re.leaveSubreddit username subredditName).engine.subreddits.len = re.subreddits.len) ∧
    (∀ k, (re.subreddits.index k).isSome = true →
      ((re.leaveSubreddit username subredditName).engine.subreddits.index k).isSome = true) ∧
    (re.leaveSubreddit username subredditName).engine.users = re.users ∧
    (re.leaveSubreddit username subredditName).engine.posts = re.posts ∧
    (re.leaveSubreddit username subredditName).engine.comments = re.comments := by
  cases hs : re.subreddits.index subredditName with
  | none =>
    cases hu : re.users.index username <;>
      simp [leaveSubreddit, joinSubreddit, createPost, hs, hu, Outcome.reply]
  | some subreddit =>
    simp only [leaveSubreddit, hs, Outcome.reply, false_implies, true_and, and_true,
      Option.some.injEq, forall_eq', reduceCtorEq]
    refine ⟨⟨⟨_, GoMap.index_assign_self _ _ _, ?_⟩, ?_, ?_, ?_⟩, ?_⟩
    · intro k
      rw [GoMap.index_delete]
      by_cases hk : k = username <;> simp [hk]
    · intro hnot
      rw [GoMap.delete_of_index_none _ _ hnot]
      have : re.subreddits.assign subredditName subreddit = re.subreddits :=
        GoMap.assign_of_index_some_self _ hs
      simp [this]
    · intro k hk
      exact GoMap.index_assign_of_ne _ _ hk
    · exact GoMap.len_assign_of_index_some _ _ hs
    · intro k hk
      exact (GoMap.isSome_index_assign _ _ _ _).2 (Or.inr hk)

/-- C13 on the store whose only user is bob: leaving the missing subreddit golang is
answered 301, joining it 302. -/
theorem leaveSubreddit_contract_witness :
    onlyBob.subreddits.index "golang" = none ∧
    (onlyBob.users.index "bob").isSome = true ∧
    (onlyBob.leaveSubreddit "bob" "golang").respond = some (Reply.code 301) ∧
    (onlyBob.leaveSubreddit "bob" "golang").engine = onlyBob ∧
    (onlyBob.joinSubreddit "bob" "golang").respond = some (Reply.code 302) :=
  ⟨by decide, by decide,
    ((leaveSubreddit_contract onlyBob "bob" "golang").1 (by decide)).1,
    ((leaveSubreddit_contract onlyBob "bob" "golang").1 (by decide)).2.1,
    ((((leaveSubreddit_contract onlyBob "bob" "golang").1 (by decide)).2.2.1)
      (by decide)).1⟩

/-! ## Direct messages -/

/-- C14: `sendDirectMessage` responds 301 when the recipient is missing, whether or not the
sender exists, and 302 when the recipient exists and the sender does not; in both cases
the engine is unchanged.  Otherwise it responds 200, the recipient keeps its other fields
and its inbox becomes the old inbox followed by the one message `From:<from> -<content>`,
every other user keeps its binding, and subreddits, posts and comments are the same. -/
theorem sendDirectMessage_contract (re : RedditEngine) (fromUsername toUsername content : String) :
    (re.users.index toUsername = none →
      (re.sendDirectMessage fromUsername toUsername content).respond = some (Reply.code 301) ∧
      (re.sendDirectMessage fromUsername toUsername content).engine = re) ∧
    ((re.users.index toUsername).isSome = true → re.users.index fromUsername = none →
      (re.sendDirectMessage fromUsername toUsername content).respond = some (Reply.code 302) ∧
      (re.sendDirectMessage fromUsername toUsername content).engine = re) ∧
    (∀ toUser : User, re.users.index toUsername = some toUser →
      (re.users.index fromUsername).isSome = true →
      (re.sendDirectMessage fromUsername toUsername content).respond = some (Reply.code 200) ∧
      (re.sendDirectMessage fromUsername toUsername content).engine.users.index toUsername =
        some { toUser with
               Inbox := toUser.Inbox ++ ["From:" ++ fromUsername ++ " -" ++ content] } ∧
      (∀ k, k ≠ toUsername →
        (re.sendDirectMessage fromUsername toUsername content).engine.users.index k =
          re.users.index k) ∧
      (re.sendDirectMessage fromUsername toUsername content).engine.users.len = re.users.len ∧
      (re.sendDirectMessage fromUsername toUsername content).engine.subreddits =
        re.subreddits ∧
      (re.sendDirectMessage fromUsername toUsername content).engine.posts = re.posts ∧
      (re.sendDirectMessage fromUsername toUsername content).engine.comments = re.comments) := by
  refine ⟨?_, ?_, ?_⟩
  · intro ht
    simp [sendDirectMessage, ht, Outcome.reply]
  · intro ht hf
    cases ht' : re.users.index toUsername with
    | none => simp [ht'] at ht
    | some toUser => simp [sendDirectMessage, ht', hf, Outcome.reply]
  · intro toUser ht hf
    cases hf' : re.users.index fromUsername with
    | none => simp [hf'] at hf
    | some fromUser =>
      simp only [sendDirectMessage, ht, hf', Outcome.reply, directMessageOf, true_and, and_true]
      refine ⟨GoMap.index_assign_self _ _ _, ?_, GoMap.len_assign_of_index_some _ _ ht⟩
      intro k hk
      exact GoMap.index_assign_of_ne _ _ hk

/-! ## The post that `createPost` stores -/

/-- C15: when the author is a user and the subreddit exists, `createPost` binds
`<author>_post_<count+1>`, `count` the number of posts before the call written in decimal,
to a post with the given title, content, author and subreddit and zero votes; users,
subreddits (hence memberships) and comments are the same, and every other post id keeps
its binding. -/
theorem createPost_stores (re : RedditEngine) (now : Nat)
    (title content author subreddit : String)
    (hu : (re.users.index author).isSome = true)
    (hs : (re.subreddits.index subreddit).isSome = true) :
    (re.createPost now title content author subreddit).engine.posts.index
        (author ++ "_post_" ++ Nat.repr (re.posts.len + 1)) =
      some { ID := author ++ "_post_" ++ Nat.repr (re.posts.len + 1), Title := title,
             Content := content, Author := author, Subreddit := subreddit,
             Upvotes := 0, Downvotes := 0, CreatedAt := now } ∧
    (∀ k, k ≠ author ++ "_post_" ++ Nat.repr (re.posts.len + 1) →
      (re.createPost now title content author subreddit).engine.posts.index k =
        re.posts.index k) ∧
    (re.createPost now title content author subreddit).engine.users = re.users ∧
    (re.createPost now title content author subreddit).engine.subreddits = re.subreddits ∧
    (re.createPost now title content author subreddit).engine.comments = re.comments := by
  cases hu' : re.users.index author with
  | none => simp [hu'] at hu
  | some user =>
    cases hs' : re.subreddits.index subreddit with
    | none => simp [hs'] at hs
    | some sub =>
      simp only [createPost, hu', hs', Outcome.reply, postIdOf, and_true]
      refine ⟨GoMap.index_assign_self _ _ _, ?_⟩
      intro k hk
      exact GoMap.index_assign_of_ne _ _ hk

/-- C15 on the store with users `u`, `v` and subreddits `A`, `B`, `C` that already holds
three posts: a post by `u` in `C` is stored under `u_post_4`. -/
theorem createPost_stores_witness :
    (feedExample.users.index "u").isSome = true ∧
    (feedExample.subreddits.index "C").isSome = true ∧
    ((feedExample.createPost 11 "t" "body" "u" "C").engine.posts.index
        ("u" ++ "_post_" ++ Nat.repr (feedExample.posts.len + 1)) =
      some { ID := "u" ++ "_post_" ++ Nat.repr (feedExample.posts.len + 1), Title := "t",
             Content := "body", Author := "u", Subreddit := "C",
             Upvotes := 0, Downvotes := 0, CreatedAt := 11 } ∧
    (∀ k, k ≠ "u" ++ "_post_" ++ Nat.repr (feedExample.posts.len + 1) →
      (feedExample.createPost 11 "t" "body" "u" "C").engine.posts.index k =
        feedExample.posts.index k) ∧
    (feedExample.createPost 11 "t" "body" "u" "C").engine.users = feedExample.users ∧
    (feedExample.createPost 11 "t" "body" "u" "C").engine.subreddits =
      feedExample.subreddits ∧
    (feedExample.createPost 11 "t" "body" "u" "C").engine.comments = feedExample.comments) :=
  ⟨by decide, by decide,
    createPost_stores feedExample 11 "t" "body" "u" "C" (by decide) (by decide)⟩

/-! ## Decimal numerals at the end of an id -/

theorem digitChar_isDigit (d : Nat) (h : d < 10) : (Nat.digitChar d).isDigit = true := by
  interval_cases d <;> decide

theorem digitChar_value (d : Nat) (h : d < 10) : (Nat.digitChar d).toNat - 48 = d := by
  interval_cases d <;> decide

theorem toDigitsCore_append (fuel : Nat) :
    ∀ (n : Nat) (ds : List Char),
      Nat.toDigitsCore 10 fuel n ds = Nat.toDigitsCore 10 fuel n [] ++ ds := by
  induction fuel with
  | zero => intro n ds; simp [Nat.toDigitsCore]
  | succ fuel ih =>
    intro n ds
    simp only [Nat.toDigitsCore]
    by_cases h : n / 10 = 0
    · simp [h]
    · simp only [h, if_false]
      rw [ih (n / 10) (Nat.digitChar (n % 10) :: ds), ih (n / 10) [Nat.digitChar (n % 10)]]
      simp

theorem toDigitsCore_isDigit (fuel : Nat) :
    ∀ (n : Nat) (ds : List Char), (∀ c ∈ ds, c.isDigit = true) →
      ∀ c ∈ Nat.toDigitsCore 10 fuel n ds, c.isDigit = true := by
  induction fuel with
  | zero => intro n ds hds; simpa [Nat.toDigitsCore] using hds
  | succ fuel ih =>
    intro n ds hds
    have hd : (Nat.digitChar (n % 10)).isDigit = true :=
      digitChar_isDigit _ (Nat.mod_lt _ (by decide))
    have hcons : ∀ c ∈ Nat.digitChar (n % 10) :: ds, c.isDigit = true := by
      intro c hc
      rcases List.mem_cons.1 hc with h | h
      · rw [h]; exact hd
      · exact hds c h
    simp only [Nat.toDigitsCore]
    by_cases h : n / 10 = 0
    · simpa [h] using hcons
    · simp only [h, if_false]
      exact ih _ _ hcons

theorem decimalValue_append_singleton (l : List Char) (c : Char) :
    decimalValue (l ++ [c]) = decimalValue l * 10 + (c.toNat - 48) := by
  simp [decimalValue, List.foldl_append]

theorem decimalValue_toDigitsCore (fuel : Nat) :
    ∀ n : Nat, n < fuel → decimalValue (Nat.toDigitsCore 10 fuel n []) = n := by
  induction fuel with
  | zero => intro n h; omega
  | succ fuel ih =>
    intro n hn
    simp only [Nat.toDigitsCore]
    by_cases h : n / 10 = 0
    · have hlt : n < 10 := by omega
      simp only [h, if_true]
      have : n % 10 = n := Nat.mod_eq_of_lt hlt
      simp [decimalValue, this, digitChar_value n hlt]
    · simp only [h, if_false]
      rw [toDigitsCore_append, decimalValue_append_singleton, ih (n / 10) (by omega),
        digitChar_value _ (Nat.mod_lt _ (by decide))]
      omega

theorem decimalValue_repr (n : Nat) : decimalValue (Nat.repr n).data = n := by
  show decimalValue (Nat.toDigitsCore 10 (n + 1) n []) = n
  exact decimalValue_toDigitsCore (n + 1) n (Nat.lt_succ_self n)

theorem repr_isDigit (n : Nat) : ∀ c ∈ (Nat.repr n).data, c.isDigit = true := by
  show ∀ c ∈ Nat.toDigitsCore 10 (n + 1) n [], c.isDigit = true
  exact toDigitsCore_isDigit (n + 1) n [] (by simp)

theorem takeWhile_digits_then_other (d : List Char) (c : Char) (rest : List Char)
    (hd : ∀ x ∈ d, x.isDigit = true) (hc : c.isDigit = false) :
    (d ++ c :: rest).takeWhile Char.isDigit = d := by
  induction d with
  | nil => simp [List.takeWhile, hc]
  | cons x xs ih =>
    have hx : x.isDigit = true := hd x (List.mem_cons_self _ _)
    have hxs : ∀ y ∈ xs, y.isDigit = true := fun y hy => hd y (List.mem_cons_of_mem _ hy)
    simp [List.takeWhile, hx, ih hxs]

theorem trailingDigits_numbered (pre : List Char) (c : Char) (n : Nat)
    (hc : c.isDigit = false) :
    trailingDigits (pre ++ c :: (Nat.repr n).data) = (Nat.repr n).data := by
  unfold trailingDigits
  have hrev : (pre ++ c :: (Nat.repr n).data).reverse =
      (Nat.repr n).data.reverse ++ c :: pre.reverse := by simp
  rw [hrev, takeWhile_digits_then_other _ c _ _ hc, List.reverse_reverse]
  intro x hx
  exact repr_isDigit n x (List.mem_reverse.1 hx)

theorem numbered_id_inj (a b sep : String) (pre : List Char) (c : Char)
    (hsep : sep.data = pre ++ [c]) (hc : c.isDigit = false) (n m : Nat)
    (h : a ++ sep ++ Nat.repr n = b ++ sep ++ Nat.repr m) : n = m := by
  have hdata := congrArg String.data h
  simp only [String.data_append, hsep, List.append_assoc, List.singleton_append] at hdata
  have h₁ := trailingDigits_numbered (a.data ++ pre) c n hc
  have h₂ := trailingDigits_numbered (b.data ++ pre) c m hc
  simp only [List.append_assoc] at h₁ h₂
  rw [hdata, h₂] at h₁
  have := congrArg decimalValue h₁
  rw [decimalValue_repr, decimalValue_repr] at this
  exact this.symm

/-! ## What one message can do to each map -/

theorem posts_step (re : RedditEngine) (now : Nat) (msg : Message) :
    (re.postCreated now msg = false ∧ (re.Receive now msg).engine.posts = re.posts) ∨
    (re.postCreated now msg = false ∧
      ∃ (k : String) (p p' : Post), re.posts.index k = some p ∧ p.KeptBy p' ∧
        (re.Receive now msg).engine.posts = re.posts.assign k p') ∨
    (∃ title content author subreddit : String,
      re.postCreated now msg = true ∧
      (re.users.index author).isSome = true ∧ (re.subreddits.index subreddit).isSome = true ∧
      (re.Receive now msg).engine.posts =
        re.posts.assign (postIdOf author (re.posts.len + 1))
          { ID := postIdOf author (re.posts.len + 1), Title := title, Content := content,
            Author := author, Subreddit := subreddit, Upvotes := 0, Downvotes := 0,
            CreatedAt := now }) := by
  cases msg with
  | RegisterUser u =>
    left
    refine ⟨rfl, ?_⟩
    simp only [RedditEngine.Receive, registerUser]
    cases re.users.index u <;> rfl
  | CreateSubreddit n d =>
    left
    refine ⟨rfl, ?_⟩
    simp only [RedditEngine.Receive, createSubreddit]
    cases re.subreddits.index n <;> rfl
  | JoinSubreddit u s =>
    left
    refine ⟨rfl, ?_⟩
    simp only [RedditEngine.Receive, joinSubreddit]
    cases re.users.index u <;> cases re.subreddits.index s <;> rfl
  | LeaveSubreddit u s =>
    left
    refine ⟨rfl, ?_⟩
    simp only [RedditEngine.Receive, leaveSubreddit]
    cases re.subreddits.index s <;> rfl
  | CreatePost t c a s =>
    simp only [RedditEngine.Receive, createPost]
    cases hu : re.users.index a with
    | none =>
      left
      simp [RedditEngine.postCreated, RedditEngine.Receive, createPost, hu, Outcome.reply]
    | some user =>
      cases hs : re.subreddits.index s with
      | none =>
        left
        simp [RedditEngine.postCreated, RedditEngine.Receive, createPost, hu, hs,
          Outcome.reply]
      | some sub =>
        right; right
        refine ⟨t, c, a, s, ?_, by simp [hu], by simp [hs], rfl⟩
        simp [RedditEngine.postCreated, RedditEngine.Receive, createPost, hu, hs,
          Outcome.reply]
  | CreateComment c a p q =>
    left
    refine ⟨rfl, ?_⟩
    simp only [RedditEngine.Receive, createComment]
    cases re.users.index a <;> cases re.posts.index p <;> rfl
  | Upvote u m t =>
    simp only [RedditEngine.Receive, upvote]
    by_cases h₁ : m = "Post"
    · cases hp : re.posts.index t with
      | none => left; refine ⟨rfl, ?_⟩; simp [h₁, hp, Outcome.reply]
      | some post =>
        right; left
        refine ⟨rfl, ?_⟩
        refine ⟨t, post, { post with Upvotes := incr post.Upvotes }, hp, ?_, ?_⟩
        · exact ⟨rfl, rfl, rfl, rfl, rfl, rfl, fun h => le_incr _ h, fun _ => le_refl _⟩
        · simp [h₁, hp, Outcome.reply]
    · left
      refine ⟨rfl, ?_⟩
      by_cases h₂ : m = "Comment"
      · cases hc : re.comments.index t <;> simp [h₁, h₂, hc, Outcome.reply, Outcome.silent]
      · simp [h₁, h₂, Outcome.reply]
  | Downvote u m t =>
    simp only [RedditEngine.Receive, downvote]
    by_cases h₁ : m = "Post"
    · cases hp : re.posts.index t with
      | none => left; refine ⟨rfl, ?_⟩; simp [h₁, hp, Outcome.reply]
      | some post =>
        right; left
        refine ⟨rfl, ?_⟩
        refine ⟨t, post, { post with Downvotes := incr post.Downvotes }, hp, ?_, ?_⟩
        · exact ⟨rfl, rfl, rfl, rfl, rfl, rfl, fun _ => le_refl _, fun h => le_incr _ h⟩
        · simp [h₁, hp, Outcome.reply]
    · left
      refine ⟨rfl, ?_⟩
      by_cases h₂ : m = "Comment"
      · cases hc : re.comments.index t <;> simp [h₁, h₂, hc, Outcome.reply, Outcome.silent]
      · simp [h₁, h₂, Outcome.reply]
  | SendDirectMessage f t c =>
    left
    refine ⟨rfl, ?_⟩
    simp only [RedditEngine.Receive, sendDirectMessage]
    cases re.users.index t <;> cases re.users.index f <;> rfl
  | GetUserFeed u =>
    left
    refine ⟨rfl, ?_⟩
    simp only [RedditEngine.Receive, getUserFeed]
    cases re.users.index u <;> rfl
  | other => left; refine ⟨rfl, ?_⟩; rfl

theorem comments_step (re : RedditEngine) (now : Nat) (msg : Message) :
    (re.commentCreated now msg = false ∧
      (re.Receive now msg).engine.comments = re.comments) ∨
    (re.commentCreated now msg = false ∧
      ∃ (k : String) (c c' : Comment), re.comments.index k = some c ∧ c.KeptBy c' ∧
        (re.Receive now msg).engine.comments = re.comments.assign k c') ∨
    (∃ content author postId parentId : String,
      re.commentCreated now msg = true ∧
      (re.users.index author).isSome = true ∧ (re.posts.index postId).isSome = true ∧
      (re.Receive now msg).engine.comments =
        re.comments.assign (commentIdOf author (re.comments.len + 1))
          { ID := commentIdOf author (re.comments.len + 1), Content := content,
            Author := author, Post := postId,
            ParentID := if parentId ≠ "" then some parentId else none,
            Upvotes := 0, Downvotes := 0, CreatedAt := now }) := by
  have hne : ¬ ("Comment" = "Post") := by decide
  cases msg with
  | RegisterUser u =>
    left
    refine ⟨rfl, ?_⟩
    simp only [RedditEngine.Receive, registerUser]
    cases re.users.index u <;> rfl
  | CreateSubreddit n d =>
    left
    refine ⟨rfl, ?_⟩
    simp only [RedditEngine.Receive, createSubreddit]
    cases re.subreddits.index n <;> rfl
  | JoinSubreddit u s =>
    left
    refine ⟨rfl, ?_⟩
    simp only [RedditEngine.Receive, joinSubreddit]
    cases re.users.index u <;> cases re.subreddits.index s <;> rfl
  | LeaveSubreddit u s =>
    left
    refine ⟨rfl, ?_⟩
    simp only [RedditEngine.Receive, leaveSubreddit]
    cases re.subreddits.index s <;> rfl
  | CreatePost t c a s =>
    left
    refine ⟨rfl, ?_⟩
    simp only [RedditEngine.Receive, createPost]
    cases re.users.index a <;> cases re.subreddits.index s <;> rfl
  | CreateComment c a p q =>
    simp only [RedditEngine.Receive, createComment]
    cases hu : re.users.index a with
    | none =>
      left
      simp [RedditEngine.commentCreated, RedditEngine.Receive, createComment, hu,
        Outcome.reply]
    | some user =>
      cases hp : re.posts.index p with
      | none =>
        left
        simp [RedditEngine.commentCreated, RedditEngine.Receive, createComment, hu, hp,
          Outcome.reply]
      | some post =>
        right; right
        refine ⟨c, a, p, q, ?_, by simp [hu], by simp [hp], rfl⟩
        simp [RedditEngine.commentCreated, RedditEngine.Receive, createComment, hu, hp,
          Outcome.reply]
  | Upvote u m t =>
    simp only [RedditEngine.Receive, upvote]
    by_cases h₁ : m = "Post"
    · left
      refine ⟨rfl, ?_⟩
      cases hp : re.posts.index t <;> simp [h₁, hp, Outcome.reply]
    · by_cases h₂ : m = "Comment"
      · cases hc : re.comments.index t with
        | none => left; refine ⟨rfl, ?_⟩; simp [h₁, h₂, hc, Outcome.silent]
        | some comment =>
          right; left
          refine ⟨rfl, ?_⟩
          refine ⟨t, comment, { comment with Upvotes := incr comment.Upvotes }, hc, ?_, ?_⟩
          · exact ⟨rfl, rfl, rfl, rfl, rfl, rfl, fun h => le_incr _ h, fun _ => le_refl _⟩
          · simp [h₂, hne, hc, Outcome.reply]
      · left; refine ⟨rfl, ?_⟩; simp [h₁, h₂, Outcome.reply]
  | Downvote u m t =>
    simp only [RedditEngine.Receive, downvote]
    by_cases h₁ : m = "Post"
    · left
      refine ⟨rfl, ?_⟩
      cases hp : re.posts.index t <;> simp [h₁, hp, Outcome.reply]
    · by_cases h₂ : m = "Comment"
      · cases hc : re.comments.index t with
        | none => left; refine ⟨rfl, ?_⟩; simp [h₁, h₂, hc, Outcome.silent]
        | some comment =>
          right; left
          refine ⟨rfl, ?_⟩
          refine ⟨t, comment, { comment with Downvotes := incr comment.Downvotes }, hc, ?_,
            ?_⟩
          · exact ⟨rfl, rfl, rfl, rfl, rfl, rfl, fun _ => le_refl _, fun h => le_incr _ h⟩
          · simp [h₂, hne, hc, Outcome.reply]
      · left; refine ⟨rfl, ?_⟩; simp [h₁, h₂, Outcome.reply]
  | SendDirectMessage f t c =>
    left
    refine ⟨rfl, ?_⟩
    simp only [RedditEngine.Receive, sendDirectMessage]
    cases re.users.index t <;> cases re.users.index f <;> rfl
  | GetUserFeed u =>
    left
    refine ⟨rfl, ?_⟩
    simp only [RedditEngine.Receive, getUserFeed]
    cases re.users.index u <;> rfl
  | other => left; refine ⟨rfl, ?_⟩; rfl

theorem users_step (re : RedditEngine) (now : Nat) (msg : Message) :
    (re.Receive now msg).engine.users = re.users ∨
    (∃ u : String, re.users.index u = none ∧
      (re.Receive now msg).engine.users =
        re.users.assign u { ID := u, Username := u, Karma := 0, Inbox := [] }) ∨
    (∃ (k : String) (user user' : User), re.users.index k = some user ∧
      user'.ID = user.ID ∧ user'.Username = user.Username ∧
      (re.Receive now msg).engine.users = re.users.assign k user') := by
  cases msg with
  | RegisterUser u =>
    simp only [RedditEngine.Receive, registerUser]
    cases hu : re.users.index u with
    | some user => left; rfl
    | none => right; left; exact ⟨u, hu, rfl⟩
  | CreateSubreddit n d =>
    left
    simp only [RedditEngine.Receive, createSubreddit]
    cases re.subreddits.index n <;> rfl
  | JoinSubreddit u s =>
    left
    simp only [RedditEngine.Receive, joinSubreddit]
    cases re.users.index u <;> cases re.subreddits.index s <;> rfl
  | LeaveSubreddit u s =>
    left
    simp only [RedditEngine.Receive, leaveSubreddit]
    cases re.subreddits.index s <;> rfl
  | CreatePost t c a s =>
    left
    simp only [RedditEngine.Receive, createPost]
    cases re.users.index a <;> cases re.subreddits.index s <;> rfl
  | CreateComment c a p q =>
    left
    simp only [RedditEngine.Receive, createComment]
    cases re.users.index a <;> cases re.posts.index p <;> rfl
  | Upvote u m t =>
    left
    simp only [RedditEngine.Receive, upvote]
    by_cases h₁ : m = "Post"
    · cases hp : re.posts.index t <;> simp [h₁, hp, Outcome.reply]
    · by_cases h₂ : m = "Comment"
      · cases hc : re.comments.index t <;> simp [h₁, h₂, hc, Outcome.reply, Outcome.silent]
      · simp [h₁, h₂, Outcome.reply]
  | Downvote u m t =>
    left
    simp only [RedditEngine.Receive, downvote]
    by_cases h₁ : m = "Post"
    · cases hp : re.posts.index t <;> simp [h₁, hp, Outcome.reply]
    · by_cases h₂ : m = "Comment"
      · cases hc : re.comments.index t <;> simp [h₁, h₂, hc, Outcome.reply, Outcome.silent]
      · simp [h₁, h₂, Outcome.reply]
  | SendDirectMessage f t c =>
    simp only [RedditEngine.Receive, sendDirectMessage]
    cases ht : re.users.index t with
    | none => left; rfl
    | some toUser =>
      cases hf : re.users.index f with
      | none => left; rfl
      | some fromUser =>
        right; right
        exact ⟨t, toUser, { toUser with Inbox := toUser.Inbox ++ [directMessageOf f c] },
          ht, rfl, rfl, rfl⟩
  | GetUserFeed u =>
    left
    simp only [RedditEngine.Receive, getUserFeed]
    cases re.users.index u <;> rfl
  | other => left; rfl

theorem subreddits_step (re : RedditEngine) (now : Nat) (msg : Message) :
    (re.Receive now msg).engine.subreddits = re.subreddits ∨
    (∃ n d : String, re.subreddits.index n = none ∧
      (re.Receive now msg).engine.subreddits =
        re.subreddits.assign n { ID := n, Name := n, Description := d, Members := [] }) ∨
    (∃ (u s : String) (sub : Subreddit), (re.users.index u).isSome = true ∧
      re.subreddits.index s = some sub ∧
      (re.Receive now msg).engine.subreddits =
        re.subreddits.assign s { sub with Members := sub.Members.assign u u }) ∨
    (∃ (u s : String) (sub : Subreddit), re.subreddits.index s = some sub ∧
      (re.Receive now msg).engine.subreddits =
        re.subreddits.assign s { sub with Members := sub.Members.delete u }) := by
  cases msg with
  | RegisterUser u =>
    left
    simp only [RedditEngine.Receive, registerUser]
    cases re.users.index u <;> rfl
  | CreateSubreddit n d =>
    simp only [RedditEngine.Receive, createSubreddit]
    cases hs : re.subreddits.index n with
    | some sub => left; rfl
    | none => right; left; exact ⟨n, d, hs, rfl⟩
  | JoinSubreddit u s =>
    simp only [RedditEngine.Receive, joinSubreddit]
    cases hu : re.users.index u with
    | none => left; rfl
    | some user =>
      cases hs : re.subreddits.index s with
      | none => left; rfl
      | some sub =>
        right; right; left
        exact ⟨u, s, sub, by simp [hu], hs, rfl⟩
  | LeaveSubreddit u s =>
    simp only [RedditEngine.Receive, leaveSubreddit]
    cases hs : re.subreddits.index s with
    | none => left; rfl
    | some sub =>
      right; right; right
      exact ⟨u, s, sub, hs, rfl⟩
  | CreatePost t c a s =>
    left
    simp only [RedditEngine.Receive, createPost]
    cases re.users.index a <;> cases re.subreddits.index s <;> rfl
  | CreateComment c a p q =>
    left
    simp only [RedditEngine.Receive, createComment]
    cases re.users.index a <;> cases re.posts.index p <;> rfl
  | Upvote u m t =>
    left
    simp only [RedditEngine.Receive, upvote]
    by_cases h₁ : m = "Post"
    · cases hp : re.posts.index t <;> simp [h₁, hp, Outcome.reply]
    · by_cases h₂ : m = "Comment"
      · cases hc : re.comments.index t <;> simp [h₁, h₂, hc, Outcome.reply, Outcome.silent]
      · simp [h₁, h₂, Outcome.reply]
  | Downvote u m t =>
    left
    simp only [RedditEngine.Receive, downvote]
    by_cases h₁ : m = "Post"
    · cases hp : re.posts.index t <;> simp [h₁, hp, Outcome.reply]
    · by_cases h₂ : m = "Comment"
      · cases hc : re.comments.index t <;> simp [h₁, h₂, hc, Outcome.reply, Outcome.silent]
      · simp [h₁, h₂, Outcome.reply]
  | SendDirectMessage f t c =>
    left
    simp only [RedditEngine.Receive, sendDirectMessage]
    cases re.users.index t <;> cases re.users.index f <;> rfl
  | GetUserFeed u =>
    left
    simp only [RedditEngine.Receive, getUserFeed]
    cases re.users.index u <;> rfl
  | other => left; rfl

/-! ## Keys are never lost -/

theorem GoMap.isSome_index_assign_of_isSome {V : Type} (m : GoMap V) (k k' : String) (v : V)
    (h : (m.index k').isSome = true) : ((m.assign k v).index k').isSome = true :=
  (GoMap.isSome_index_assign m k k' v).2 (Or.inr h)

theorem GoMap.mem_of_index_some {V : Type} (m : GoMap V) (k : String) (v : V)
    (h : m.index k = some v) : (k, v) ∈ m := by
  induction m with
  | nil => simp [GoMap.index] at h
  | cons kv rest ih =>
    obtain ⟨k₀, v₀⟩ := kv
    by_cases h₀ : k₀ = k
    · simp only [GoMap.index, h₀, if_true, Option.some.injEq] at h
      simp [h₀, h]
    · simp only [GoMap.index, h₀, if_false] at h
      exact List.mem_cons_of_mem _ (ih h)

theorem GoMap.mem_assign {V : Type} (m : GoMap V) (k : String) (v : V) (kv : String × V)
    (h : kv ∈ m.assign k v) : kv ∈ m ∨ kv = (k, v) := by
  induction m with
  | nil => right; simpa [GoMap.assign] using h
  | cons e rest ih =>
    obtain ⟨k₀, v₀⟩ := e
    by_cases h₀ : k₀ = k
    · simp only [GoMap.assign, h₀, if_true, List.mem_cons] at h
      rcases h with h | h
      · right; exact h
      · left; exact List.mem_cons_of_mem _ h
    · simp only [GoMap.assign, h₀, if_false, List.mem_cons] at h
      rcases h with h | h
      · left; rw [h]; exact List.mem_cons_self _ _
      · rcases ih h with h' | h'
        · left; exact List.mem_cons_of_mem _ h'
        · right; exact h'

theorem GoMap.mem_of_mem_delete {V : Type} (m : GoMap V) (k : String) (kv : String × V)
    (h : kv ∈ m.delete k) : kv ∈ m :=
  List.mem_of_mem_filter h

theorem users_keys_step (re : RedditEngine) (now : Nat) (msg : Message) (k : String)
    (h : (re.users.index k).isSome = true) :
    ((re.Receive now msg).engine.users.index k).isSome = true := by
  rcases users_step re now msg with h₁ | ⟨u, _, h₂⟩ | ⟨k', _, _, _, _, _, h₃⟩
  · rw [h₁]; exact h
  · rw [h₂]; exact GoMap.isSome_index_assign_of_isSome _ _ _ _ h
  · rw [h₃]; exact GoMap.isSome_index_assign_of_isSome _ _ _ _ h

theorem subreddits_keys_step (re : RedditEngine) (now : Nat) (msg : Message) (k : String)
    (h : (re.subreddits.index k).isSome = true) :
    ((re.Receive now msg).engine.subreddits.index k).isSome = true := by
  rcases subreddits_step re now msg with
    h₁ | ⟨_, _, _, h₂⟩ | ⟨_, _, _, _, _, h₃⟩ | ⟨_, _, _, _, h₄⟩
  · rw [h₁]; exact h
  · rw [h₂]; exact GoMap.isSome_index_assign_of_isSome _ _ _ _ h
  · rw [h₃]; exact GoMap.isSome_index_assign_of_isSome _ _ _ _ h
  · rw [h₄]; exact GoMap.isSome_index_assign_of_isSome _ _ _ _ h

theorem posts_keys_step (re : RedditEngine) (now : Nat) (msg : Message) (k : String)
    (h : (re.posts.index k).isSome = true) :
    ((re.Receive now msg).engine.posts.index k).isSome = true := by
  rcases posts_step re now msg with
    ⟨_, h₁⟩ | ⟨_, _, _, _, _, _, h₂⟩ | ⟨_, _, _, _, _, _, _, h₃⟩
  · rw [h₁]; exact h
  · rw [h₂]; exact GoMap.isSome_index_assign_of_isSome _ _ _ _ h
  · rw [h₃]; exact GoMap.isSome_index_assign_of_isSome _ _ _ _ h

theorem comments_keys_step (re : RedditEngine) (now : Nat) (msg : Message) (k : String)
    (h : (re.comments.index k).isSome = true) :
    ((re.Receive now msg).engine.comments.index k).isSome = true := by
  rcases comments_step re now msg with
    ⟨_, h₁⟩ | ⟨_, _, _, _, _, _, h₂⟩ | ⟨_, _, _, _, _, _, _, h₃⟩
  · rw [h₁]; exact h
  · rw [h₂]; exact GoMap.isSome_index_assign_of_isSome _ _ _ _ h
  · rw [h₃]; exact GoMap.isSome_index_assign_of_isSome _ _ _ _ h

/-! ## Generated ids are fresh -/

theorem postIdOf_number_inj (a b : String) (n m : Nat) (h : postIdOf a n = postIdOf b m) :
    n = m :=
  numbered_id_inj a b "_post_" ['_', 'p', 'o', 's', 't'] '_' rfl (by decide) n m h

theorem commentIdOf_number_inj (a b : String) (n m : Nat)
    (h : commentIdOf a n = commentIdOf b m) : n = m :=
  numbered_id_inj a b "_comment_" ['_', 'c', 'o', 'm', 'm', 'e', 'n', 't'] '_' rfl
    (by decide) n m h

theorem fresh_post_id (re : RedditEngine) (h : re.IdsNumbered) (a : String) :
    re.posts.index (postIdOf a (re.posts.len + 1)) = none := by
  cases hidx : re.posts.index (postIdOf a (re.posts.len + 1)) with
  | none => rfl
  | some p =>
    obtain ⟨b, n, hid, hn⟩ :=
      h.1 (postIdOf a (re.posts.len + 1)) (by rw [hidx]; rfl)
    have := postIdOf_number_inj _ _ _ _ hid
    omega

theorem fresh_comment_id (re : RedditEngine) (h : re.IdsNumbered) (a : String) :
    re.comments.index (commentIdOf a (re.comments.len + 1)) = none := by
  cases hidx : re.comments.index (commentIdOf a (re.comments.len + 1)) with
  | none => rfl
  | some c =>
    obtain ⟨b, n, hid, hn⟩ :=
      h.2 (commentIdOf a (re.comments.len + 1)) (by rw [hidx]; rfl)
    have := commentIdOf_number_inj _ _ _ _ hid
    omega

theorem idsNumbered_empty : RedditEngine.empty.IdsNumbered := by
  constructor <;> intro k hk <;> simp [RedditEngine.empty, GoMap.index] at hk

theorem idsNumbered_step (re : RedditEngine) (h : re.IdsNumbered) (now : Nat) (msg : Message) :
    (re.Receive now msg).engine.IdsNumbered := by
  constructor
  · intro k hk
    rcases posts_step re now msg with
      ⟨_, h₁⟩ | ⟨_, k₀, p, p', hp, _, h₂⟩ | ⟨t, c, a, s, _, _, _, h₃⟩
    · rw [h₁] at hk ⊢
      exact h.1 k hk
    · rw [h₂] at hk
      have hlen : (re.Receive now msg).engine.posts.len = re.posts.len := by
        rw [h₂]; exact GoMap.len_assign_of_index_some _ _ hp
      rw [hlen]
      rcases (GoMap.isSome_index_assign _ _ _ _).1 hk with hk' | hk'
      · exact h.1 k (by rw [hk', hp]; rfl)
      · exact h.1 k hk'
    · rw [h₃] at hk
      have hlen : (re.Receive now msg).engine.posts.len = re.posts.len + 1 := by
        rw [h₃]; exact GoMap.len_assign_of_index_none _ _ (fresh_post_id re h a)
      rw [hlen]
      rcases (GoMap.isSome_index_assign _ _ _ _).1 hk with hk' | hk'
      · exact ⟨a, re.posts.len + 1, hk', Nat.le_refl _⟩
      · obtain ⟨b, n, hid, hn⟩ := h.1 k hk'
        exact ⟨b, n, hid, Nat.le_succ_of_le hn⟩
  · intro k hk
    rcases comments_step re now msg with
      ⟨_, h₁⟩ | ⟨_, k₀, c, c', hc, _, h₂⟩ | ⟨t, a, p, q, _, _, _, h₃⟩
    · rw [h₁] at hk ⊢
      exact h.2 k hk
    · rw [h₂] at hk
      have hlen : (re.Receive now msg).engine.comments.len = re.comments.len := by
        rw [h₂]; exact GoMap.len_assign_of_index_some _ _ hc
      rw [hlen]
      rcases (GoMap.isSome_index_assign _ _ _ _).1 hk with hk' | hk'
      · exact h.2 k (by rw [hk', hc]; rfl)
      · exact h.2 k hk'
    · rw [h₃] at hk
      have hlen : (re.Receive now msg).engine.comments.len = re.comments.len + 1 := by
        rw [h₃]; exact GoMap.len_assign_of_index_none _ _ (fresh_comment_id re h a)
      rw [hlen]
      rcases (GoMap.isSome_index_assign _ _ _ _).1 hk with hk' | hk'
      · exact ⟨a, re.comments.len + 1, hk', Nat.le_refl _⟩
      · obtain ⟨b, n, hid, hn⟩ := h.2 k hk'
        exact ⟨b, n, hid, Nat.le_succ_of_le hn⟩

theorem idsNumbered_run (msgs : List (Nat × Message)) :
    ∀ re : RedditEngine, re.IdsNumbered → (re.run msgs).IdsNumbered := by
  induction msgs with
  | nil => intro re h; exact h
  | cons m rest ih =>
    intro re h
    exact ih _ (idsNumbered_step re h m.1 m.2)

/-- C17: in every state reached from the empty engine by any sequence of messages, the id
`<author>_post_<count+1>` is the id of no post and `<author>_comment_<count+1>` the id of
no comment, whatever the author string; hence a `createPost` (`createComment`) answered
with 200 makes the map exactly one larger and leaves every binding it had as it was. -/
theorem generated_ids_fresh (msgs : List (Nat × Message)) (now : Nat)
    (title content author target parentId : String) :
    (RedditEngine.empty.run msgs).posts.index
        (author ++ "_post_" ++ Nat.repr ((RedditEngine.empty.run msgs).posts.len + 1)) =
      none ∧
    (RedditEngine.empty.run msgs).comments.index
        (author ++ "_comment_" ++ Nat.repr ((RedditEngine.empty.run msgs).comments.len + 1)) =
      none ∧
    (((RedditEngine.empty.run msgs).createPost now title content author target).respond =
        some (Reply.code 200) →
      ((RedditEngine.empty.run msgs).createPost now title content author target).engine.posts.len
          = (RedditEngine.empty.run msgs).posts.len + 1 ∧
      ∀ (k : String) (p : Post), (RedditEngine.empty.run msgs).posts.index k = some p →
        ((RedditEngine.empty.run msgs).createPost now title content author
            target).engine.posts.index k = some p) ∧
    (((RedditEngine.empty.run msgs).createComment now content author target parentId).respond =
        some (Reply.code 200) →
      ((RedditEngine.empty.run msgs).createComment now content author target
          parentId).engine.comments.len = (RedditEngine.empty.run msgs).comments.len + 1 ∧
      ∀ (k : String) (c : Comment), (RedditEngine.empty.run msgs).comments.index k = some c →
        ((RedditEngine.empty.run msgs).createComment now content author target
            parentId).engine.comments.index k = some c) := by
  have hids := idsNumbered_run msgs RedditEngine.empty idsNumbered_empty
  generalize RedditEngine.empty.run msgs = re at hids ⊢
  have hfp := fresh_post_id re hids author
  have hfc := fresh_comment_id re hids author
  refine ⟨hfp, hfc, ?_, ?_⟩
  · intro hok
    cases hu : re.users.index author with
    | none => simp [createPost, hu, Outcome.reply] at hok
    | some user =>
      cases hs : re.subreddits.index target with
      | none => simp [createPost, hu, hs, Outcome.reply] at hok
      | some sub =>
        simp only [createPost, hu, hs, Outcome.reply]
        refine ⟨GoMap.len_assign_of_index_none _ _ hfp, ?_⟩
        intro k p hk
        rw [GoMap.index_assign_of_ne _ _ ?_, hk]
        intro heq
        rw [heq, hfp] at hk
        exact Option.noConfusion hk
  · intro hok
    cases hu : re.users.index author with
    | none => simp [createComment, hu, Outcome.reply] at hok
    | some user =>
      cases hp : re.posts.index target with
      | none => simp [createComment, hu, hp, Outcome.reply] at hok
      | some post =>
        simp only [createComment, hu, hp, Outcome.reply]
        refine ⟨GoMap.len_assign_of_index_none _ _ hfc, ?_⟩
        intro k c hk
        rw [GoMap.index_assign_of_ne _ _ ?_, hk]
        intro heq
        rw [heq, hfc] at hk
        exact Option.noConfusion hk

/-! ## The number in a generated id -/

theorem posts_len_step (re : RedditEngine) (h : re.IdsNumbered) (now : Nat) (msg : Message) :
    (re.Receive now msg).engine.posts.len =
      re.posts.len + (if re.postCreated now msg = true then 1 else 0) := by
  rcases posts_step re now msg with
    ⟨hc, h₁⟩ | ⟨hc, k₀, p, p', hp, _, h₂⟩ | ⟨t, c, a, s, hc, _, _, h₃⟩
  · simp [h₁, hc]
  · rw [h₂, GoMap.len_assign_of_index_some _ _ hp]
    simp [hc]
  · rw [h₃, GoMap.len_assign_of_index_none _ _ (fresh_post_id re h a)]
    simp [hc]

theorem comments_len_step (re : RedditEngine) (h : re.IdsNumbered) (now : Nat)
    (msg : Message) :
    (re.Receive now msg).engine.comments.len =
      re.comments.len + (if re.commentCreated now msg = true then 1 else 0) := by
  rcases comments_step re now msg with
    ⟨hc, h₁⟩ | ⟨hc, k₀, c, c', hk, _, h₂⟩ | ⟨t, a, p, q, hc, _, _, h₃⟩
  · simp [h₁, hc]
  · rw [h₂, GoMap.len_assign_of_index_some _ _ hk]
    simp [hc]
  · rw [h₃, GoMap.len_assign_of_index_none _ _ (fresh_comment_id re h a)]
    simp [hc]

theorem posts_len_run (msgs : List (Nat × Message)) :
    ∀ re : RedditEngine, re.IdsNumbered →
      (re.run msgs).posts.len = re.posts.len + re.createdPosts msgs := by
  induction msgs with
  | nil => intro re _; simp [RedditEngine.run, RedditEngine.createdPosts]
  | cons m rest ih =>
    intro re h
    obtain ⟨now, msg⟩ := m
    simp only [RedditEngine.run, RedditEngine.createdPosts]
    rw [ih _ (idsNumbered_step re h now msg), posts_len_step re h now msg]
    omega

theorem comments_len_run (msgs : List (Nat × Message)) :
    ∀ re : RedditEngine, re.IdsNumbered →
      (re.run msgs).comments.len = re.comments.len + re.createdComments msgs := by
  induction msgs with
  | nil => intro re _; simp [RedditEngine.run, RedditEngine.createdComments]
  | cons m rest ih =>
    intro re h
    obtain ⟨now, msg⟩ := m
    simp only [RedditEngine.run, RedditEngine.createdComments]
    rw [ih _ (idsNumbered_step re h now msg), comments_len_step re h now msg]
    omega

/-- C18 fails as stated: alice and bob register, alice posts, then bob posts, every step
succeeding; the first post of bob is not stored under `bob_post_1` but under `bob_post_2`,
and likewise his first comment is `bob_comment_2`. -/
theorem first_post_of_second_author :
    RedditEngine.empty.trace twoAuthors =
      [some (Reply.bool true), some (Reply.bool true), some (Reply.bool true),
       some (Reply.code 200), some (Reply.code 200), some (Reply.code 200),
       some (Reply.code 200)] ∧
    (RedditEngine.empty.run twoAuthors).posts.index "bob_post_1" = none ∧
    ((RedditEngine.empty.run twoAuthors).posts.index "bob_post_2").map
        (fun p => (p.Author, p.Title)) = some ("bob", "second") ∧
    (RedditEngine.empty.run twoAuthors).comments.index "bob_comment_1" = none ∧
    ((RedditEngine.empty.run twoAuthors).comments.index "bob_comment_2").map
        (fun c => (c.Author, c.Content)) = some ("bob", "ho") := by
  decide

/-- C18, amended: the number in a generated id counts the creations of the whole store,
not those of the author.  After any run from the empty engine the number of posts is the
number of `CreatePost` messages answered 200 so far, so the next successful `createPost`,
the k-th of the run for `k` one more than that number, stores its post under
`<author>_post_<k>` whoever the author is; the same holds for comments. -/
theorem generated_id_counts_store (msgs : List (Nat × Message)) (now : Nat)
    (title content author target parentId : String) :
    (RedditEngine.empty.run msgs).posts.len = RedditEngine.empty.createdPosts msgs ∧
    (RedditEngine.empty.run msgs).comments.len = RedditEngine.empty.createdComments msgs ∧
    (((RedditEngine.empty.run msgs).createPost now title content author target).respond =
        some (Reply.code 200) →
      ((RedditEngine.empty.run msgs).createPost now title content author
          target).engine.posts.index
          (author ++ "_post_" ++ Nat.repr (RedditEngine.empty.createdPosts msgs + 1)) =
        some { ID := author ++ "_post_" ++ Nat.repr (RedditEngine.empty.createdPosts msgs + 1),
               Title := title, Content := content, Author := author, Subreddit := target,
               Upvotes := 0, Downvotes := 0, CreatedAt := now } ∧
      (RedditEngine.empty.run msgs).posts.index
          (author ++ "_post_" ++ Nat.repr (RedditEngine.empty.createdPosts msgs + 1)) =
        none) ∧
    (((RedditEngine.empty.run msgs).createComment now content author target parentId).respond =
        some (Reply.code 200) →
      ((RedditEngine.empty.run msgs).createComment now content author target
          parentId).engine.comments.index
          (author ++ "_comment_" ++ Nat.repr (RedditEngine.empty.createdComments msgs + 1)) =
        some { ID := author ++ "_comment_" ++
                 Nat.repr (RedditEngine.empty.createdComments msgs + 1),
               Content := content, Author := author, Post := target,
               ParentID := if parentId = "" then none else some parentId,
               Upvotes := 0, Downvotes := 0, CreatedAt := now } ∧
      (RedditEngine.empty.run msgs).comments.index
          (author ++ "_comment_" ++ Nat.repr (RedditEngine.empty.createdComments msgs + 1)) =
        none) := by
  have hids := idsNumbered_run msgs RedditEngine.empty idsNumbered_empty
  have hpl : (RedditEngine.empty.run msgs).posts.len = RedditEngine.empty.createdPosts msgs := by
    rw [posts_len_run msgs _ idsNumbered_empty]
    simp [RedditEngine.empty, GoMap.len]
  have hcl : (RedditEngine.empty.run msgs).comments.len =
      RedditEngine.empty.createdComments msgs := by
    rw [comments_len_run msgs _ idsNumbered_empty]
    simp [RedditEngine.empty, GoMap.len]
  refine ⟨hpl, hcl, ?_, ?_⟩
  · rw [← hpl]
    generalize RedditEngine.empty.run msgs = re at hids ⊢
    intro hok
    refine ⟨?_, fresh_post_id re hids author⟩
    cases hu : re.users.index author with
    | none => simp [createPost, hu, Outcome.reply] at hok
    | some user =>
      cases hs : re.subreddits.index target with
      | none => simp [createPost, hu, hs, Outcome.reply] at hok
      | some sub =>
        simp only [createPost, hu, hs, Outcome.reply]
        exact GoMap.index_assign_self _ _ _
  · rw [← hcl]
    generalize RedditEngine.empty.run msgs = re at hids ⊢
    intro hok
    refine ⟨?_, fresh_comment_id re hids author⟩
    cases hu : re.users.index author with
    | none => simp [createComment, hu, Outcome.reply] at hok
    | some user =>
      cases hp : re.posts.index target with
      | none => simp [createComment, hu, hp, Outcome.reply] at hok
      | some post =>
        simp only [createComment, hu, hp, Outcome.reply]
        rw [show commentIdOf author (re.comments.len + 1) =
          author ++ "_comment_" ++ Nat.repr (re.comments.len + 1) from rfl,
          GoMap.index_assign_self]
        simp

/-! ## Referential integrity -/

theorem refIntegrity_empty : RedditEngine.empty.RefIntegrity := by
  refine ⟨?_, ?_, ?_⟩ <;> intro kv hkv <;> simp [RedditEngine.empty] at hkv

theorem refIntegrity_step (re : RedditEngine) (h : re.RefIntegrity) (now : Nat)
    (msg : Message) : (re.Receive now msg).engine.RefIntegrity := by
  obtain ⟨hposts, hcomments, hmembers⟩ := h
  refine ⟨?_, ?_, ?_⟩
  · intro kv hkv
    have hold : (re.users.index kv.2.Author).isSome = true ∧
        (re.subreddits.index kv.2.Subreddit).isSome = true := by
      rcases posts_step re now msg with
        ⟨_, h₁⟩ | ⟨_, k₀, p, p', hp, hkept, h₂⟩ | ⟨t, c, a, s, _, ha, hs, h₃⟩
      · rw [h₁] at hkv
        exact hposts kv hkv
      · rw [h₂] at hkv
        rcases GoMap.mem_assign _ _ _ _ hkv with hmem | heq
        · exact hposts kv hmem
        · have := hposts (k₀, p) (GoMap.mem_of_index_some _ _ _ hp)
          obtain ⟨_, _, _, hau, hsu, _⟩ := hkept
          rw [heq]
          simpa [hau, hsu] using this
      · rw [h₃] at hkv
        rcases GoMap.mem_assign _ _ _ _ hkv with hmem | heq
        · exact hposts kv hmem
        · rw [heq]
          exact ⟨ha, hs⟩
    exact ⟨users_keys_step re now msg _ hold.1, subreddits_keys_step re now msg _ hold.2⟩
  · intro kv hkv
    have hold : (re.users.index kv.2.Author).isSome = true ∧
        (re.posts.index kv.2.Post).isSome = true := by
      rcases comments_step re now msg with
        ⟨_, h₁⟩ | ⟨_, k₀, c, c', hc, hkept, h₂⟩ | ⟨t, a, p, q, _, ha, hp, h₃⟩
      · rw [h₁] at hkv
        exact hcomments kv hkv
      · rw [h₂] at hkv
        rcases GoMap.mem_assign _ _ _ _ hkv with hmem | heq
        · exact hcomments kv hmem
        · have := hcomments (k₀, c) (GoMap.mem_of_index_some _ _ _ hc)
          obtain ⟨_, _, hau, hpo, _⟩ := hkept
          rw [heq]
          simpa [hau, hpo] using this
      · rw [h₃] at hkv
        rcases GoMap.mem_assign _ _ _ _ hkv with hmem | heq
        · exact hcomments kv hmem
        · rw [heq]
          exact ⟨ha, hp⟩
    exact ⟨users_keys_step re now msg _ hold.1, posts_keys_step re now msg _ hold.2⟩
  · intro kv hkv m hm
    have hold : (re.users.index m.1).isSome = true ∧ (re.users.index m.2).isSome = true := by
      rcases subreddits_step re now msg with
        h₁ | ⟨n, d, _, h₂⟩ | ⟨u, s, sub, hu, hs, h₃⟩ | ⟨u, s, sub, hs, h₄⟩
      · rw [h₁] at hkv
        exact hmembers kv hkv m hm
      · rw [h₂] at hkv
        rcases GoMap.mem_assign _ _ _ _ hkv with hmem | heq
        · exact hmembers kv hmem m hm
        · rw [heq] at hm
          simp at hm
      · rw [h₃] at hkv
        rcases GoMap.mem_assign _ _ _ _ hkv with hmem | heq
        · exact hmembers kv hmem m hm
        · rw [heq] at hm
          rcases GoMap.mem_assign _ _ _ _ hm with hm' | hm'
          · exact hmembers (s, sub) (GoMap.mem_of_index_some _ _ _ hs) m hm'
          · rw [hm']
            exact ⟨hu, hu⟩
      · rw [h₄] at hkv
        rcases GoMap.mem_assign _ _ _ _ hkv with hmem | heq
        · exact hmembers kv hmem m hm
        · rw [heq] at hm
          exact hmembers (s, sub) (GoMap.mem_of_index_some _ _ _ hs) m
            (GoMap.mem_of_mem_delete _ _ _ hm)
    exact ⟨users_keys_step re now msg _ hold.1, users_keys_step re now msg _ hold.2⟩

theorem refIntegrity_run (msgs : List (Nat × Message)) :
    ∀ re : RedditEngine, re.RefIntegrity → (re.run msgs).RefIntegrity := by
  induction msgs with
  | nil => intro re h; exact h
  | cons m rest ih =>
    intro re h
    exact ih _ (refIntegrity_step re h m.1 m.2)

/-- C19: in every state reached from the empty engine by any sequence of messages, the
author of every post is a user and its subreddit is a subreddit, the author of every
comment is a user and its post is a post, and every member of every subreddit is a user.
In particular every `*User` that `getUserFeed` dereferences has a target. -/
theorem referential_integrity (msgs : List (Nat × Message)) :
    (∀ (k : String) (p : Post), (k, p) ∈ (RedditEngine.empty.run msgs).posts →
      (∃ author : User, (RedditEngine.empty.run msgs).users.index p.Author = some author) ∧
      (∃ sub : Subreddit,
        (RedditEngine.empty.run msgs).subreddits.index p.Subreddit = some sub)) ∧
    (∀ (k : String) (c : Comment), (k, c) ∈ (RedditEngine.empty.run msgs).comments →
      (∃ author : User, (RedditEngine.empty.run msgs).users.index c.Author = some author) ∧
      (∃ post : Post, (RedditEngine.empty.run msgs).posts.index c.Post = some post)) ∧
    (∀ (s : String) (sub : Subreddit), (s, sub) ∈ (RedditEngine.empty.run msgs).subreddits →
      ∀ (member pointee : String), (member, pointee) ∈ sub.Members →
        (∃ user : User, (RedditEngine.empty.run msgs).users.index member = some user) ∧
        (∃ user : User, (RedditEngine.empty.run msgs).users.index pointee = some user)) ∧
    (RedditEngine.empty.run msgs).RefIntegrity ∧
    (RedditEngine.empty.run msgs).AuthorsResolve := by
  have h := refIntegrity_run msgs RedditEngine.empty refIntegrity_empty
  generalize RedditEngine.empty.run msgs = re at h ⊢
  obtain ⟨hposts, hcomments, hmembers⟩ := h
  refine ⟨?_, ?_, ?_, ⟨hposts, hcomments, hmembers⟩, ?_⟩
  · intro k p hkp
    have := hposts (k, p) hkp
    exact ⟨Option.isSome_iff_exists.1 this.1, Option.isSome_iff_exists.1 this.2⟩
  · intro k c hkc
    have := hcomments (k, c) hkc
    exact ⟨Option.isSome_iff_exists.1 this.1, Option.isSome_iff_exists.1 this.2⟩
  · intro s sub hs member pointee hm
    have := hmembers (s, sub) hs (member, pointee) hm
    exact ⟨Option.isSome_iff_exists.1 this.1, Option.isSome_iff_exists.1 this.2⟩
  · intro kv hkv
    exact (hposts kv hkv).1

/-! ## Nothing is deleted or reassigned -/

theorem post_keptBy_refl (p : Post) : p.KeptBy p :=
  ⟨rfl, rfl, rfl, rfl, rfl, rfl, fun _ => le_refl _, fun _ => le_refl _⟩

theorem comment_keptBy_refl (c : Comment) : c.KeptBy c :=
  ⟨rfl, rfl, rfl, rfl, rfl, rfl, fun _ => le_refl _, fun _ => le_refl _⟩

/-- C20 fails as stated at the largest `int`: the state reached from the empty engine by
the run `overflowRun 9223372036854775807` holds `alice_post_1` with
`Upvotes = 9223372036854775807`, and one more `Upvote`, answered 201, leaves it with
`Upvotes = -9223372036854775808`, which is lower. -/
theorem vote_lowers_counter_at_maxInt :
    ((RedditEngine.empty.run (overflowRun 9223372036854775807)).posts.index
        "alice_post_1").map (fun p => p.Upvotes) = some 9223372036854775807 ∧
    ((RedditEngine.empty.run (overflowRun 9223372036854775807)).Receive 4
        (Message.Upvote "bob" "Post" "alice_post_1")).respond = some (Reply.code 201) ∧
    (((RedditEngine.empty.run (overflowRun 9223372036854775807)).Receive 4
        (Message.Upvote "bob" "Post" "alice_post_1")).engine.posts.index
        "alice_post_1").map (fun p => p.Upvotes) = some (-9223372036854775808) ∧
    (-9223372036854775808 : Int) < 9223372036854775807 := by
  rw [overflowRun_engine]
  decide

/-- C20, amended: in every state reached from the empty engine, handling any one message
keeps every user id, subreddit id, post id and comment id that was present; every post
present before keeps its title, content, author and subreddit and every comment its
content, author, post and parent; and no `Upvotes` or `Downvotes` that is below the largest
`int` is lower afterwards. -/
theorem nothing_deleted (msgs : List (Nat × Message)) (now : Nat) (msg : Message) :
    (∀ k, ((RedditEngine.empty.run msgs).users.index k).isSome = true →
      (((RedditEngine.empty.run msgs).Receive now msg).engine.users.index k).isSome = true) ∧
    (∀ k, ((RedditEngine.empty.run msgs).subreddits.index k).isSome = true →
      (((RedditEngine.empty.run msgs).Receive now msg).engine.subreddits.index k).isSome =
        true) ∧
    (∀ (k : String) (p : Post), (RedditEngine.empty.run msgs).posts.index k = some p →
      ∃ p' : Post,
        ((RedditEngine.empty.run msgs).Receive now msg).engine.posts.index k = some p' ∧
        p'.Title = p.Title ∧ p'.Content = p.Content ∧ p'.Author = p.Author ∧
        p'.Subreddit = p.Subreddit ∧
        (p.Upvotes < maxInt → p.Upvotes ≤ p'.Upvotes) ∧
        (p.Downvotes < maxInt → p.Downvotes ≤ p'.Downvotes)) ∧
    (∀ (k : String) (c : Comment), (RedditEngine.empty.run msgs).comments.index k = some c →
      ∃ c' : Comment,
        ((RedditEngine.empty.run msgs).Receive now msg).engine.comments.index k = some c' ∧
        c'.Content = c.Content ∧ c'.Author = c.Author ∧ c'.Post = c.Post ∧
        c'.ParentID = c.ParentID ∧
        (c.Upvotes < maxInt → c.Upvotes ≤ c'.Upvotes) ∧
        (c.Downvotes < maxInt → c.Downvotes ≤ c'.Downvotes)) := by
  have hids := idsNumbered_run msgs RedditEngine.empty idsNumbered_empty
  generalize RedditEngine.empty.run msgs = re at hids ⊢
  refine ⟨fun k hk => users_keys_step re now msg k hk,
    fun k hk => subreddits_keys_step re now msg k hk, ?_, ?_⟩
  · intro k p hk
    have hkept : ∃ p' : Post, (re.Receive now msg).engine.posts.index k = some p' ∧
        p.KeptBy p' := by
      rcases posts_step re now msg with
        ⟨_, h₁⟩ | ⟨_, k₀, p₀, p₀', hp₀, hkept, h₂⟩ | ⟨t, c, a, s, _, _, _, h₃⟩
      · exact ⟨p, by rw [h₁]; exact hk, post_keptBy_refl p⟩
      · by_cases hkk : k = k₀
        · subst hkk
          rw [hk] at hp₀
          cases hp₀
          exact ⟨p₀', by rw [h₂]; exact GoMap.index_assign_self _ _ _, hkept⟩
        · exact ⟨p, by rw [h₂, GoMap.index_assign_of_ne _ _ hkk]; exact hk,
            post_keptBy_refl p⟩
      · have hne : k ≠ postIdOf a (re.posts.len + 1) := by
          intro heq
          rw [heq, fresh_post_id re hids a] at hk
          exact Option.noConfusion hk
        exact ⟨p, by rw [h₃, GoMap.index_assign_of_ne _ _ hne]; exact hk,
          post_keptBy_refl p⟩
    obtain ⟨p', hidx, _, ht, hc, ha, hs, _, hu, hd⟩ := hkept
    exact ⟨p', hidx, ht, hc, ha, hs, hu, hd⟩
  · intro k c hk
    have hkept : ∃ c' : Comment, (re.Receive now msg).engine.comments.index k = some c' ∧
        c.KeptBy c' := by
      rcases comments_step re now msg with
        ⟨_, h₁⟩ | ⟨_, k₀, c₀, c₀', hc₀, hkept, h₂⟩ | ⟨t, a, p, q, _, _, _, h₃⟩
      · exact ⟨c, by rw [h₁]; exact hk, comment_keptBy_refl c⟩
      · by_cases hkk : k = k₀
        · subst hkk
          rw [hk] at hc₀
          cases hc₀
          exact ⟨c₀', by rw [h₂]; exact GoMap.index_assign_self _ _ _, hkept⟩
        · exact ⟨c, by rw [h₂, GoMap.index_assign_of_ne _ _ hkk]; exact hk,
            comment_keptBy_refl c⟩
      · have hne : k ≠ commentIdOf a (re.comments.len + 1) := by
          intro heq
          rw [heq, fresh_comment_id re hids a] at hk
          exact Option.noConfusion hk
        exact ⟨c, by rw [h₃, GoMap.index_assign_of_ne _ _ hne]; exact hk,
          comment_keptBy_refl c⟩
    obtain ⟨c', hidx, _, hco, ha, hp, hpa, _, hu, hd⟩ := hkept
    exact ⟨c', hidx, hco, ha, hp, hpa, hu, hd⟩

/-- C20, amended, after the run `twoAuthors`: an upvote of `alice_post_1` keeps the post
with its title, content, author and subreddit, and its counters are not lower. -/
theorem nothing_deleted_witness :
    (RedditEngine.empty.run twoAuthors).posts.index "alice_post_1" =
      some { ID := "alice_post_1", Title := "first", Content := "x", Author := "alice",
             Subreddit := "golang", Upvotes := 0, Downvotes := 0, CreatedAt := 3 } ∧
    ∃ p' : Post,
      ((RedditEngine.empty.run twoAuthors).Receive 7
          (Message.Upvote "bob" "Post" "alice_post_1")).engine.posts.index "alice_post_1" =
        some p' ∧
      p'.Title = "first" ∧ p'.Content = "x" ∧ p'.Author = "alice" ∧
      p'.Subreddit = "golang" ∧
      ((0 : Int) < maxInt → (0 : Int) ≤ p'.Upvotes) ∧
      ((0 : Int) < maxInt → (0 : Int) ≤ p'.Downvotes) :=
  ⟨by decide,
    (nothing_deleted twoAuthors 7 (Message.Upvote "bob" "Post" "alice_post_1")).2.2.1
      "alice_post_1"
      { ID := "alice_post_1", Title := "first", Content := "x", Author := "alice",
        Subreddit := "golang", Upvotes := 0, Downvotes := 0, CreatedAt := 3 } (by decide)⟩

/-! ## What `createPost` gives back to its caller -/

/-- C16 fails as stated: no function of what the caller receives, the engine's response
and the envelope the handler writes, yields the generated id.  On the store `feedExample`
a post by `u` and a post by `v` are both answered with 200 and the same envelope, while
their ids, `u_post_4` and `v_post_4`, differ. -/
theorem createPost_result_has_no_id :
    ¬ ∃ idOf : Option Reply × Option HTTPWrite → String,
      ∀ (re : RedditEngine) (now : Nat) (request : CreatePostRequest),
        (re.createPost now request.Title request.Content request.Author
            request.Subreddit).respond = some (Reply.code 200) →
        idOf ((re.createPost now request.Title request.Content request.Author
                request.Subreddit).respond,
              (CreatePostHandler re now (some request)).2) =
          request.Author ++ "_post_" ++ Nat.repr (re.posts.len + 1) := by
  rintro ⟨idOf, h⟩
  have h₁ := h feedExample 0
    { Title := "t", Content := "c", Author := "u", Subreddit := "A" } (by decide)
  have h₂ := h feedExample 0
    { Title := "t", Content := "c", Author := "v", Subreddit := "A" } (by decide)
  have hsame :
      ((feedExample.createPost 0 "t" "c" "u" "A").respond,
        (CreatePostHandler feedExample 0
          (some { Title := "t", Content := "c", Author := "u", Subreddit := "A" })).2) =
      ((feedExample.createPost 0 "t" "c" "v" "A").respond,
        (CreatePostHandler feedExample 0
          (some { Title := "t", Content := "c", Author := "v", Subreddit := "A" })).2) := by
    decide
  rw [hsame, h₂] at h₁
  revert h₁
  decide

/-- C16, amended: when the author is a user and the subreddit exists, the engine answers
`createPost` with the bare code 200 and the handler writes the fixed text "Post created
successfully"; the generated id is not part of either.  The post is stored under
`<author>_post_<count+1>`, and a caller that names this id can vote on the post (201) and,
as the same author, comment on it (200). -/
theorem createPost_result (re : RedditEngine) (now : Nat) (request : CreatePostRequest)
    (hu : (re.users.index request.Author).isSome = true)
    (hs : (re.subreddits.index request.Subreddit).isSome = true) :
    (re.createPost now request.Title request.Content request.Author
        request.Subreddit).respond = some (Reply.code 200) ∧
    CreatePostHandler re now (some request) =
      ((re.createPost now request.Title request.Content request.Author
          request.Subreddit).engine,
        some (JSONSuccess (Data.text "Post created successfully"))) ∧
    (∀ userId : String,
      ((re.createPost now request.Title request.Content request.Author
          request.Subreddit).engine.upvote userId "Post"
          (request.Author ++ "_post_" ++ Nat.repr (re.posts.len + 1))).respond =
        some (Reply.code 201)) ∧
    (∀ (later : Nat) (content parentId : String),
      ((re.createPost now request.Title request.Content request.Author
          request.Subreddit).engine.createComment later content request.Author
          (request.Author ++ "_post_" ++ Nat.repr (re.posts.len + 1)) parentId).respond =
        some (Reply.code 200)) := by
  cases hu' : re.users.index request.Author with
  | none => simp [hu'] at hu
  | some user =>
    cases hs' : re.subreddits.index request.Subreddit with
    | none => simp [hs'] at hs
    | some sub =>
      have hidx : (re.posts.assign (postIdOf request.Author (re.posts.len + 1))
            { ID := postIdOf request.Author (re.posts.len + 1), Title := request.Title,
              Content := request.Content, Author := request.Author,
              Subreddit := request.Subreddit, Upvotes := 0, Downvotes := 0,
              CreatedAt := now }).index
            (request.Author ++ "_post_" ++ Nat.repr (re.posts.len + 1)) =
          some { ID := postIdOf request.Author (re.posts.len + 1), Title := request.Title,
                 Content := request.Content, Author := request.Author,
                 Subreddit := request.Subreddit, Upvotes := 0, Downvotes := 0,
                 CreatedAt := now } :=
        GoMap.index_assign_self _ _ _
      refine ⟨?_, ?_, ?_, ?_⟩
      · simp [createPost, hu', hs', Outcome.reply]
      · simp [CreatePostHandler, RedditEngine.Receive, createPost, hu', hs', Outcome.reply]
      · intro userId
        simp [createPost, hu', hs', Outcome.reply, upvote, hidx]
      · intro later content parentId
        simp [createPost, hu', hs', Outcome.reply, createComment, hidx]

/-- C16, amended, on the store `feedExample`: a post by `u` in `A`. -/
theorem createPost_result_witness :
    (feedExample.users.index "u").isSome = true ∧
    (feedExample.subreddits.index "A").isSome = true ∧
    ((feedExample.createPost 0 "t" "c" "u" "A").respond = some (Reply.code 200) ∧
     CreatePostHandler feedExample 0
        (some { Title := "t", Content := "c", Author := "u", Subreddit := "A" }) =
      ((feedExample.createPost 0 "t" "c" "u" "A").engine,
        some (JSONSuccess (Data.text "Post created successfully"))) ∧
     (∀ userId : String,
      ((feedExample.createPost 0 "t" "c" "u" "A").engine.upvote userId "Post"
          ("u" ++ "_post_" ++ Nat.repr (feedExample.posts.len + 1))).respond =
        some (Reply.code 201)) ∧
     (∀ (later : Nat) (content parentId : String),
      ((feedExample.createPost 0 "t" "c" "u" "A").engine.createComment later content "u"
          ("u" ++ "_post_" ++ Nat.repr (feedExample.posts.len + 1)) parentId).respond =
        some (Reply.code 200))) :=
  ⟨by decide, by decide,
    createPost_result feedExample 0
      { Title := "t", Content := "c", Author := "u", Subreddit := "A" }
      (by decide) (by decide)⟩

/-! ## The feed of an unknown user -/

/-- C21: when `username` is not a user, `getUserFeed` responds 200 and leaves the engine
unchanged; what it writes is a status-200 envelope with `Status` "success" whose data is
the map {error: "User doesn't exist"}, which carries no feed entry. -/
theorem getUserFeed_unknown_user (re : RedditEngine) (username : String)
    (hu : re.users.index username = none) :
    (re.getUserFeed username).respond = some (Reply.code 200) ∧
    (re.getUserFeed username).engine = re ∧
    (re.Receive 0 (Message.GetUserFeed username)).respond = some (Reply.code 200) ∧
    ∃ w : HTTPWrite,
      (re.getUserFeed username).written = some w ∧
      w.statusCode = 200 ∧
      w.body.Status = "success" ∧
      w.body.Message = none ∧
      w.body.Data = some (Data.errorMap "User doesn't exist") ∧
      (w.body.Data.map Data.postEntries) = some [] := by
  refine ⟨?_, ?_, ?_, JSONSuccess (Data.errorMap "User doesn't exist"), ?_, rfl, rfl, rfl, rfl,
    rfl⟩
  · simp [getUserFeed, hu]
  · simp [getUserFeed, hu]
  · simp [RedditEngine.Receive, getUserFeed, hu]
  · simp [getUserFeed, hu]

/-- C21 on the store whose only user is bob: the feed of alice. -/
theorem getUserFeed_unknown_user_witness :
    onlyBob.users.index "alice" = none ∧
    ((onlyBob.getUserFeed "alice").respond = some (Reply.code 200) ∧
     (onlyBob.getUserFeed "alice").engine = onlyBob ∧
     (onlyBob.Receive 0 (Message.GetUserFeed "alice")).respond = some (Reply.code 200) ∧
     ∃ w : HTTPWrite,
       (onlyBob.getUserFeed "alice").written = some w ∧
       w.statusCode = 200 ∧
       w.body.Status = "success" ∧
       w.body.Message = none ∧
       w.body.Data = some (Data.errorMap "User doesn't exist") ∧
       (w.body.Data.map Data.postEntries) = some []) :=
  ⟨by decide, getUserFeed_unknown_user onlyBob "alice" (by decide)⟩

/-! ## The error message of `/message/send` -/

/-- C22: for a `SendDirectMessage` that the engine does not answer with 200, the handler
writes a 403 error whose message names the party that is present, not the missing one:
"Sender doesn't exist" when the recipient is missing (engine code 301), and "Receiver
doesn't exist" when the recipient exists and the sender is missing (engine code 302).  The
engine is unchanged. -/
theorem sendDirectMessageHandler_failure (re : RedditEngine) (now : Nat)
    (request : SendDirectMessageRequest)
    (hfail : (re.sendDirectMessage request.From request.To request.Content).respond ≠
      some (Reply.code 200)) :
    (re.users.index request.To = none →
      (re.sendDirectMessage request.From request.To request.Content).respond =
        some (Reply.code 301) ∧
      SendDirectMessageHandler re now (some request) =
        (re, some (JSONError 403 "Sender doesn't exist"))) ∧
    ((re.users.index request.To).isSome = true →
      re.users.index request.From = none ∧
      (re.sendDirectMessage request.From request.To request.Content).respond =
        some (Reply.code 302) ∧
      SendDirectMessageHandler re now (some request) =
        (re, some (JSONError 403 "Receiver doesn't exist"))) := by
  cases ht : re.users.index request.To with
  | none =>
    simp [SendDirectMessageHandler, RedditEngine.Receive, sendDirectMessage, ht, Outcome.reply]
  | some toUser =>
    cases hf : re.users.index request.From with
    | none =>
      simp [SendDirectMessageHandler, RedditEngine.Receive, sendDirectMessage, ht, hf,
        Outcome.reply]
    | some fromUser =>
      simp [sendDirectMessage, ht, hf, Outcome.reply] at hfail

/-- C22 on the store whose only user is bob: when bob writes to the unknown alice the
client reads "Sender doesn't exist". -/
theorem sendDirectMessageHandler_failure_witness :
    (onlyBob.sendDirectMessage "bob" "alice" "hi").respond ≠ some (Reply.code 200) ∧
    onlyBob.users.index "alice" = none ∧
    (onlyBob.users.index "bob").isSome = true ∧
    SendDirectMessageHandler onlyBob 1
        (some { From := "bob", To := "alice", Content := "hi" }) =
      (onlyBob, some (JSONError 403 "Sender doesn't exist")) ∧
    ((onlyBob.users.index "alice" = none →
      (onlyBob.sendDirectMessage "bob" "alice" "hi").respond = some (Reply.code 301) ∧
      SendDirectMessageHandler onlyBob 1
          (some { From := "bob", To := "alice", Content := "hi" }) =
        (onlyBob, some (JSONError 403 "Sender doesn't exist"))) ∧
     ((onlyBob.users.index "alice").isSome = true →
      onlyBob.users.index "bob" = none ∧
      (onlyBob.sendDirectMessage "bob" "alice" "hi").respond = some (Reply.code 302) ∧
      SendDirectMessageHandler onlyBob 1
          (some { From := "bob", To := "alice", Content := "hi" }) =
        (onlyBob, some (JSONError 403 "Receiver doesn't exist")))) :=
  ⟨by decide, by decide, by decide,
    ((sendDirectMessageHandler_failure onlyBob 1
      { From := "bob", To := "alice", Content := "hi" } (by decide)).1 (by decide)).2,
    sendDirectMessageHandler_failure onlyBob 1
      { From := "bob", To := "alice", Content := "hi" } (by decide)⟩

end RedditClone
